import Mathlib

/-!
Verification of the contact-resolution core: the generation-checked coarena
(`src/data/coarena.rs`) and the batched two-body contact-constraint
builder/solver (`src/dynamics/solver/contact_constraint/two_body_constraint_simd.rs`).

The Rust code is shallowly embedded: `Vec<(u32, T)>` becomes `List (ℕ × T)`
with the sentinel generation `u32::MAX` kept as the explicit constant
`u32MAX`; panics (`assert!`, out-of-bounds indexing) become `Option.none`;
`Real` becomes `ℚ`; the embedding fixes the `dim2` feature, so vectors are
2-dimensional and angular quantities are scalars; a SIMD value of width
`SIMD_WIDTH` becomes a function `Fin SIMD_WIDTH → _`, every SIMD operation
acting lane-wise.
-/

namespace Rapier

/-- The sentinel generation `u32::MAX` used by the coarena to mark empty slots. -/
def u32MAX : ℕ := 4294967295

/-- `arena::Index`: a slot number paired with a generation counter, as produced
by `Index::from_raw_parts` and destructured by `Index::into_raw_parts`. -/
structure Index where
  slot : ℕ
  generation : ℕ
deriving DecidableEq, Repr

/-- `Coarena<T>`: a sparse vector of `(generation, value)` pairs keyed by raw
slot number (`data: Vec<(u32, T)>`). -/
structure Coarena (T : Type) where
  data : List (ℕ × T)
deriving DecidableEq, Repr

/-- `Coarena::new`. -/
def Coarena.new (T : Type) : Coarena T := ⟨[]⟩

/-- `Coarena::iter`: enumerate the backing vector, skip sentinel-generation
slots, rebuild each index from the slot number and stored generation. -/
def Coarena.iter {T : Type} (c : Coarena T) : List (Index × T) :=
  (c.data.enum.filter (fun e => e.2.1 != u32MAX)).map
    (fun e => (⟨e.1, e.2.1⟩, e.2.2))

/-- `Coarena::get_unknown_gen`: fetch by raw slot number, ignoring the stored
generation. -/
def Coarena.get_unknown_gen {T : Type} (c : Coarena T) (index : ℕ) : Option T :=
  (c.data[index]?).map Prod.snd

/-- `Coarena::get_gen`. -/
def Coarena.get_gen {T : Type} (c : Coarena T) (index : ℕ) : Option ℕ :=
  (c.data[index]?).map Prod.fst

/-- `Coarena::remove`: if the stored generation matches, invalidate the slot
(generation set to the sentinel, value replaced by `removed_value`) and return
the old value; otherwise leave the coarena untouched and return `None`.
Returns the pair (returned option, resulting coarena). -/
def Coarena.remove {T : Type} (c : Coarena T) (index : Index) (removed_value : T) :
    Option T × Coarena T :=
  match c.data[index.slot]? with
  | none => (none, c)
  | some e =>
    if index.generation = e.1 then
      (some e.2, ⟨c.data.set index.slot (u32MAX, removed_value)⟩)
    else
      (none, c)

/-- `Coarena::get`: fetch by slot and validate the generation. -/
def Coarena.get {T : Type} (c : Coarena T) (index : Index) : Option T :=
  (c.data[index.slot]?).bind
    (fun e => if index.generation = e.1 then some e.2 else none)

/-- `Vec::resize(n, v)` in the growing direction: append copies of `v` until
the length reaches `n` (identity when the vector is already at least that long). -/
def resizeGrow {T : Type} (data : List (ℕ × T)) (n : ℕ) (v : ℕ × T) :
    List (ℕ × T) :=
  data ++ List.replicate (n - data.length) v

/-- `Coarena::insert_with_default`: grow the backing vector to cover the slot
(new intermediate slots filled with the sentinel generation and `default`),
then unconditionally overwrite the target slot with `(generation, value)`. -/
def Coarena.insert_with_default {T : Type} (c : Coarena T) (a : Index)
    (value default : T) : Coarena T :=
  let data :=
    if c.data.length ≤ a.slot then
      resizeGrow c.data (a.slot + 1) (u32MAX, default)
    else
      c.data
  ⟨data.set a.slot (a.generation, value)⟩

/-- `Coarena::insert`: delegates to `insert_with_default` with `T::default()`
(the default value is passed explicitly in this embedding). -/
def Coarena.insert {T : Type} (c : Coarena T) (a : Index) (value default : T) :
    Coarena T :=
  c.insert_with_default a value default

/-- `Coarena::ensure_element_exist`: grow the backing vector, reset the slot to
`default` only when the stored generation differs, and return the value at the
slot together with the resulting coarena. -/
def Coarena.ensure_element_exist {T : Type} (c : Coarena T) (a : Index)
    (default : T) : Coarena T × Option T :=
  let data :=
    if c.data.length ≤ a.slot then
      resizeGrow c.data (a.slot + 1) (u32MAX, default)
    else
      c.data
  let data :=
    if (data.getD a.slot (u32MAX, default)).1 ≠ a.generation then
      data.set a.slot (a.generation, default)
    else
      data
  (⟨data⟩, (data[a.slot]?).map Prod.snd)

/-- The growth step of `ensure_pair_exists`: the two `resize` branches, split
on which of the two slots is larger (matching the `split_at_mut` dance in the
source, whose only observable effect is growth to the larger slot). -/
def ensurePairGrow {T : Type} (data : List (ℕ × T)) (i1 i2 : ℕ) (default : T) :
    List (ℕ × T) :=
  if i1 > i2 then
    if data.length ≤ i1 then resizeGrow data (i1 + 1) (u32MAX, default) else data
  else
    if data.length ≤ i2 then resizeGrow data (i2 + 1) (u32MAX, default) else data

/-- The per-slot generation check of `ensure_pair_exists` and
`ensure_element_exist`: reset the slot to `(g, default)` iff the stored
generation differs from `g`. -/
def ensureSlot {T : Type} (data : List (ℕ × T)) (i g : ℕ) (default : T) :
    List (ℕ × T) :=
  if (data.getD i (u32MAX, default)).1 ≠ g then data.set i (g, default) else data

/-- `Coarena::ensure_pair_exists`: `assert_ne!(i1, i2)` aborts (modelled as
`none`) when the two slots coincide; otherwise grow the backing vector once to
cover the larger slot, reset each of the two slots to `default` when its
stored generation differs, and return the two referenced values together with
the resulting coarena. -/
def Coarena.ensure_pair_exists {T : Type} (c : Coarena T) (a b : Index)
    (default : T) : Option (Coarena T × T × T) :=
  if a.slot = b.slot then
    none
  else
    let grown := ensurePairGrow c.data a.slot b.slot default
    let d1 := ensureSlot grown a.slot a.generation default
    let d2 := ensureSlot d1 b.slot b.generation default
    some (⟨d2⟩, (d2.getD a.slot (u32MAX, default)).2,
      (d2.getD b.slot (u32MAX, default)).2)

/-! ### Basic facts about the coarena operations -/

theorem resizeGrow_length {T : Type} (d : List (ℕ × T)) (n : ℕ) (v : ℕ × T)
    (h : d.length ≤ n) : (resizeGrow d n v).length = n := by
  simp [resizeGrow]; omega

theorem Coarena.insert_with_default_length {T : Type} (c : Coarena T) (a : Index)
    (v d : T) :
    (c.insert_with_default a v d).data.length = max c.data.length (a.slot + 1) := by
  by_cases h : c.data.length ≤ a.slot <;>
    simp [Coarena.insert_with_default, resizeGrow, h] <;> omega

theorem Coarena.insert_with_default_getElem? {T : Type} (c : Coarena T) (a : Index)
    (v d : T) :
    (c.insert_with_default a v d).data[a.slot]? = some (a.generation, v) := by
  have hlen : a.slot <
      (if c.data.length ≤ a.slot then resizeGrow c.data (a.slot + 1) (u32MAX, d)
       else c.data).length := by
    by_cases h : c.data.length ≤ a.slot <;> simp [h, resizeGrow] <;> omega
  simp only [Coarena.insert_with_default]
  simp [List.getElem?_set_self, hlen]

/-- Inversion of a successful `remove`: the stored generation matched and the
slot was overwritten with the sentinel and the replacement value. -/
theorem Coarena.remove_eq_some {T : Type} {c : Coarena T} {i : Index} {r old : T}
    {c' : Coarena T} (h : c.remove i r = (some old, c')) :
    i.slot < c.data.length ∧ c.data[i.slot]? = some (i.generation, old) ∧
      c'.data = c.data.set i.slot (u32MAX, r) := by
  unfold Coarena.remove at h
  split at h
  next heq => simp at h
  next e heq =>
    by_cases hg : i.generation = e.1
    · rw [if_pos hg] at h
      simp only [Prod.mk.injEq, Option.some.injEq] at h
      obtain ⟨h1, h2⟩ := h
      refine ⟨(List.getElem?_eq_some.mp heq).1, ?_, ?_⟩
      · rw [heq, hg, ← h1]
      · rw [← h2]
    · rw [if_neg hg] at h; simp at h

theorem Coarena.get_unknown_gen_of_lt {T : Type} (d : List (ℕ × T)) (k : ℕ)
    (hk : k < d.length) (dflt : ℕ × T) :
    (Coarena.mk d).get_unknown_gen k = some (d.getD k dflt).2 := by
  cases hq : d[k]? with
  | none => rw [List.getElem?_eq_none_iff] at hq; omega
  | some p => simp [Coarena.get_unknown_gen, hq, List.getD_eq_getElem?_getD]

theorem ensureSlot_length {T : Type} (d : List (ℕ × T)) (i g : ℕ) (v : T) :
    (ensureSlot d i g v).length = d.length := by
  unfold ensureSlot
  split <;> simp

theorem ensurePairGrow_length {T : Type} (d : List (ℕ × T)) (i1 i2 : ℕ) (v : T) :
    (ensurePairGrow d i1 i2 v).length = max d.length (max i1 i2 + 1) := by
  unfold ensurePairGrow
  by_cases h1 : i1 > i2
  · by_cases h2 : d.length ≤ i1
    · rw [if_pos h1, if_pos h2, resizeGrow_length d _ _ (by omega)]; omega
    · rw [if_pos h1, if_neg h2]; omega
  · by_cases h2 : d.length ≤ i2
    · rw [if_neg h1, if_pos h2, resizeGrow_length d _ _ (by omega)]; omega
    · rw [if_neg h1, if_neg h2]; omega

/-! ### Claims about the generation-checked store -/

/-- C1: ABA protection. For every slot `s`, distinct generations `g1 ≠ g2` and
values, after `insert(index(s, g1), v1); remove(index(s, g1), d); insert(index(s, g2), v2)`,
`get(index(s, g1))` returns `None` while `get(index(s, g2))` returns `Some(v2)`. -/
theorem claim_C1_aba_protection {T : Type} (c : Coarena T) (s g1 g2 : ℕ)
    (v1 v2 d1 d2 d3 : T) (hg : g1 ≠ g2) :
    ((((c.insert_with_default ⟨s, g1⟩ v1 d1).remove ⟨s, g1⟩ d2).2).insert_with_default
        ⟨s, g2⟩ v2 d3).get ⟨s, g1⟩ = none ∧
    ((((c.insert_with_default ⟨s, g1⟩ v1 d1).remove ⟨s, g1⟩ d2).2).insert_with_default
        ⟨s, g2⟩ v2 d3).get ⟨s, g2⟩ = some v2 := by
  have h3 := Coarena.insert_with_default_getElem?
    (((c.insert_with_default ⟨s, g1⟩ v1 d1).remove ⟨s, g1⟩ d2).2) ⟨s, g2⟩ v2 d3
  constructor
  · simp [Coarena.get, h3, hg]
  · simp [Coarena.get, h3]

/-- Witness for C1 at slot 2, generations 0 and 1. -/
theorem claim_C1_witness :
    ((((Coarena.new ℕ).insert_with_default ⟨2, 0⟩ 10 0).remove ⟨2, 0⟩ 0).2.insert_with_default
        ⟨2, 1⟩ 11 0).get ⟨2, 0⟩ = none ∧
    ((((Coarena.new ℕ).insert_with_default ⟨2, 0⟩ 10 0).remove ⟨2, 0⟩ 0).2.insert_with_default
        ⟨2, 1⟩ 11 0).get ⟨2, 1⟩ = some 11 :=
  claim_C1_aba_protection (Coarena.new ℕ) 2 0 1 10 11 0 0 0 (by decide)

/-- C2 counterexample: after a successful `remove(i, 7)` at generation 5, a
`get` at the same slot carrying the (different) sentinel generation
`u32::MAX = 4294967295` returns `Some(7)`, not `None` — the claim's "get with
any different generation at the same slot returns None" fails at the sentinel
generation. -/
theorem claim_C2_counterexample :
    ((((Coarena.new ℕ).insert_with_default ⟨0, 5⟩ 3 0).remove ⟨0, 5⟩ 7).1 = some 3) ∧
    ¬ ((((Coarena.new ℕ).insert_with_default ⟨0, 5⟩ 3 0).remove ⟨0, 5⟩ 7).2.get
        ⟨0, 4294967295⟩ = none) := by decide

/-- C2 (amended): `get(i)` returns `Some(v)` immediately after `insert(i, v)`;
and after a successful `remove(i, r)`, `get(j)` returns `None` for every index
`j` with `j.slot == i.slot` whose generation is not the sentinel `u32::MAX`
(a `get` carrying the sentinel generation itself matches the invalidated slot
and returns the replacement value). -/
theorem claim_C2_insert_get_remove {T : Type} (c : Coarena T) (i : Index)
    (v d r old : T) (c' : Coarena T) :
    ((c.insert_with_default i v d).get i = some v) ∧
    (c.remove i r = (some old, c') →
      ∀ g, g ≠ u32MAX → c'.get ⟨i.slot, g⟩ = none) := by
  constructor
  · have h := Coarena.insert_with_default_getElem? c i v d
    simp [Coarena.get, h]
  · intro h g hgen
    obtain ⟨hlt, hq, hdata⟩ := Coarena.remove_eq_some h
    have hq' : c'.data[i.slot]? = some (u32MAX, r) := by
      rw [hdata]; simp [List.getElem?_set_self, hlt]
    simp [Coarena.get, hq', hgen]

/-- Witness for C2 (amended): round trip at (slot 1, generation 4), removal,
then a `get` at generation 2 ≠ sentinel. -/
theorem claim_C2_witness :
    (((Coarena.new ℕ).insert_with_default ⟨1, 4⟩ 9 0).get ⟨1, 4⟩ = some 9) ∧
    ((((Coarena.new ℕ).insert_with_default ⟨1, 4⟩ 9 0).remove ⟨1, 4⟩ 5).2.get
        ⟨1, 2⟩ = none) :=
  ⟨(claim_C2_insert_get_remove (Coarena.new ℕ) ⟨1, 4⟩ 9 0 0 0 (Coarena.new ℕ)).1,
   (claim_C2_insert_get_remove ((Coarena.new ℕ).insert_with_default ⟨1, 4⟩ 9 0)
      ⟨1, 4⟩ 9 0 5 9
      ((((Coarena.new ℕ).insert_with_default ⟨1, 4⟩ 9 0).remove ⟨1, 4⟩ 5).2)).2
      (by decide) 2 (by decide)⟩

/-- C3: `ensure_pair_exists(a, b, default)` aborts iff `a.slot == b.slot` (for
any generations); otherwise it returns, grows the backing sequence to cover
`max(a.slot, b.slot)` (new length = `max(old length, max slot + 1)`), and hands
back the values stored at the two (distinct) slots. -/
theorem claim_C3_ensure_pair {T : Type} (c : Coarena T) (a b : Index)
    (default : T) :
    (a.slot = b.slot → c.ensure_pair_exists a b default = none) ∧
    (a.slot ≠ b.slot → ∃ c' v1 v2,
      c.ensure_pair_exists a b default = some (c', v1, v2) ∧
      c'.data.length = max c.data.length (max a.slot b.slot + 1) ∧
      c'.get_unknown_gen a.slot = some v1 ∧
      c'.get_unknown_gen b.slot = some v2) := by
  constructor
  · intro h; simp [Coarena.ensure_pair_exists, h]
  · intro h
    simp only [Coarena.ensure_pair_exists, if_neg h]
    set d2 : List (ℕ × T) :=
      ensureSlot (ensureSlot (ensurePairGrow c.data a.slot b.slot default)
        a.slot a.generation default) b.slot b.generation default with hd2
    have hlen : d2.length = max c.data.length (max a.slot b.slot + 1) := by
      rw [hd2, ensureSlot_length, ensureSlot_length, ensurePairGrow_length]
    refine ⟨⟨d2⟩, (d2.getD a.slot (u32MAX, default)).2,
      (d2.getD b.slot (u32MAX, default)).2, rfl, hlen, ?_, ?_⟩
    · exact Coarena.get_unknown_gen_of_lt d2 a.slot (by omega) _
    · exact Coarena.get_unknown_gen_of_lt d2 b.slot (by omega) _

/-- Witness for C3: same slot twice aborts; distinct slots 0 and 2 succeed. -/
theorem claim_C3_witness :
    ((Coarena.new ℕ).ensure_pair_exists ⟨1, 0⟩ ⟨1, 7⟩ 0 = none) ∧
    (∃ c' v1 v2, (Coarena.new ℕ).ensure_pair_exists ⟨0, 3⟩ ⟨2, 4⟩ 5 = some (c', v1, v2) ∧
      c'.data.length = max (Coarena.new ℕ).data.length (max 0 2 + 1) ∧
      c'.get_unknown_gen 0 = some v1 ∧
      c'.get_unknown_gen 2 = some v2) :=
  ⟨(claim_C3_ensure_pair (Coarena.new ℕ) ⟨1, 0⟩ ⟨1, 7⟩ 0).1 rfl,
   (claim_C3_ensure_pair (Coarena.new ℕ) ⟨0, 3⟩ ⟨2, 4⟩ 5).2 (by decide)⟩

/-- C10: after a successful `remove(i, r)`, `get_unknown_gen(i.slot)` returns
`Some(r)` — the caller-supplied replacement value — rather than `None`, while
`iter` (which filters sentinel generations) skips the slot entirely. -/
theorem claim_C10_remove_get_unknown_gen {T : Type} (c : Coarena T) (i : Index)
    (r old : T) (c' : Coarena T) (h : c.remove i r = (some old, c')) :
    c'.get_unknown_gen i.slot = some r ∧
    c'.iter.all (fun p => p.1.slot != i.slot) = true := by
  obtain ⟨hlt, hq, hdata⟩ := Coarena.remove_eq_some h
  have hq' : c'.data[i.slot]? = some (u32MAX, r) := by
    rw [hdata]; simp [List.getElem?_set_self, hlt]
  constructor
  · simp [Coarena.get_unknown_gen, hq']
  · rw [List.all_eq_true]
    intro p hp
    simp only [Coarena.iter, List.mem_map, List.mem_filter] at hp
    obtain ⟨e, ⟨he, hgen⟩, hpe⟩ := hp
    have hidx : c'.data[e.1]? = some e.2 := List.mem_enum_iff_getElem?.mp he
    subst hpe
    simp only [bne_iff_ne, ne_eq, decide_eq_true_eq] at hgen ⊢
    intro hslot
    rw [hslot, hq'] at hidx
    have : e.2 = (u32MAX, r) := by injection hidx.symm
    exact hgen (by rw [this])

/-- Witness for C10 at (slot 0, generation 2), replacement value 6. -/
theorem claim_C10_witness :
    ((((Coarena.new ℕ).insert_with_default ⟨0, 2⟩ 8 0).remove ⟨0, 2⟩ 6).2.get_unknown_gen
        0 = some 6) ∧
    ((((Coarena.new ℕ).insert_with_default ⟨0, 2⟩ 8 0).remove ⟨0, 2⟩ 6).2.iter.all
        (fun p => p.1.slot != 0) = true) :=
  claim_C10_remove_get_unknown_gen ((Coarena.new ℕ).insert_with_default ⟨0, 2⟩ 8 0)
    ⟨0, 2⟩ 6 8 ((((Coarena.new ℕ).insert_with_default ⟨0, 2⟩ 8 0).remove ⟨0, 2⟩ 6).2)
    (by decide)

/-! ## The batched two-body contact-constraint builder/solver

Embedding of `two_body_constraint_simd.rs` with the `dim2` feature fixed:
`Real` is modelled as `ℚ`, vectors are 2-dimensional, angular velocities and
angular inertias are scalars, and the friction tangent basis has a single
direction (`DIM - 1 = 1`). A SIMD quantity of lane width `SIMD_WIDTH` is a
function `Fin SIMD_WIDTH → _`; every SIMD operation acts lane-wise. -/

/-- The SIMD lane width `SIMD_WIDTH` (4 for the default f32 build). -/
abbrev SIMD_WIDTH : ℕ := 4

/-- `MAX_MANIFOLD_POINTS` (2 in the `dim2` build). -/
abbrev MAX_MANIFOLD_POINTS : ℕ := 2

/-- 2-D vector over ℚ. -/
structure Vec2 where
  x : ℚ
  y : ℚ
deriving DecidableEq, Repr

instance : Add Vec2 := ⟨fun a b => ⟨a.x + b.x, a.y + b.y⟩⟩

instance : Sub Vec2 := ⟨fun a b => ⟨a.x - b.x, a.y - b.y⟩⟩

instance : Neg Vec2 := ⟨fun a => ⟨-a.x, -a.y⟩⟩

/-- Scalar multiple of a 2-D vector. -/
def Vec2.smul (k : ℚ) (a : Vec2) : Vec2 := ⟨k * a.x, k * a.y⟩

/-- Dot product. -/
def Vec2.dot (a b : Vec2) : ℚ := a.x * b.x + a.y * b.y

/-- Component-wise product (`component_mul`). -/
def Vec2.component_mul (a b : Vec2) : Vec2 := ⟨a.x * b.x, a.y * b.y⟩

/-- 2-D cross product of two vectors (`gcross`, yielding a scalar). -/
def Vec2.gcross (a b : Vec2) : ℚ := a.x * b.y - a.y * b.x

/-- 2-D cross of a scalar angular velocity with a vector
(`angvel.gcross(dp)`, yielding a vector). -/
def Vec2.gcross_scalar (w : ℚ) (v : Vec2) : Vec2 := ⟨-w * v.y, w * v.x⟩

/-- `SimdBasis::orthonormal_basis` of a 2-D vector: its single orthogonal
complement direction (parry's convention `[-y, x]`). -/
def Vec2.orthonormal_complement (v : Vec2) : Vec2 := ⟨-v.y, v.x⟩

/-- A 2-D isometry: rotation (cosine/sine pair) plus translation. -/
structure Iso2 where
  rot_cos : ℚ
  rot_sin : ℚ
  tr : Vec2
deriving DecidableEq, Repr

/-- Apply an isometry to a point. -/
def Iso2.transform_point (m : Iso2) (p : Vec2) : Vec2 :=
  ⟨m.rot_cos * p.x - m.rot_sin * p.y + m.tr.x,
   m.rot_sin * p.x + m.rot_cos * p.y + m.tr.y⟩

/-- Apply the inverse of an isometry to a point (`inverse_transform_point`). -/
def Iso2.inverse_transform_point (m : Iso2) (p : Vec2) : Vec2 :=
  ⟨m.rot_cos * (p.x - m.tr.x) + m.rot_sin * (p.y - m.tr.y),
   -m.rot_sin * (p.x - m.tr.x) + m.rot_cos * (p.y - m.tr.y)⟩

/-- A SIMD scalar: one rational per lane. -/
abbrev SimdReal := Fin SIMD_WIDTH → ℚ

/-- A SIMD vector: one 2-D vector per lane. -/
abbrev SimdVector := Fin SIMD_WIDTH → Vec2

/-- A SIMD boolean mask. -/
abbrev SimdBool := Fin SIMD_WIDTH → Bool

/-- A SIMD isometry: one isometry per lane. -/
abbrev SimdIsometry := Fin SIMD_WIDTH → Iso2

/-- `SimdReal::splat`. -/
def SimdReal.splat (v : ℚ) : SimdReal := fun _ => v

/-- Lane-wise `simd_max`. -/
def SimdReal.simd_max (a b : SimdReal) : SimdReal := fun ii => max (a ii) (b ii)

/-- Lane-wise `simd_clamp` (max with the lower bound, then min with the upper). -/
def SimdReal.simd_clamp (v lo hi : SimdReal) : SimdReal :=
  fun ii => min (max (v ii) (lo ii)) (hi ii)

/-- Lane-wise strict greater-than mask (`simd_gt`). -/
def SimdReal.simd_gt (a b : SimdReal) : SimdBool := fun ii => decide (b ii < a ii)

/-- `a.select(mask, b)`: lane-wise choice, `a` where the mask is set, else `b`. -/
def SimdReal.select (a : SimdReal) (cond : SimdBool) (b : SimdReal) : SimdReal :=
  fun ii => if cond ii then a ii else b ii

/-- `utils::simd_inv`: lane-wise inverse, with `0⁻¹ = 0` (the zero test in the
source coincides with ℚ's convention for dividing by zero). -/
def simd_inv (a : SimdReal) : SimdReal := fun ii => (a ii)⁻¹

/-- Lane-wise dot product. -/
def SimdVector.dot (a b : SimdVector) : SimdReal := fun ii => (a ii).dot (b ii)

/-- Lane-wise component product. -/
def SimdVector.component_mul (a b : SimdVector) : SimdVector :=
  fun ii => (a ii).component_mul (b ii)

/-- Lane-wise 2-D cross product (vector × vector → scalar). -/
def SimdVector.gcross (a b : SimdVector) : SimdReal := fun ii => (a ii).gcross (b ii)

/-- Lane-wise cross of a scalar angular velocity with a vector. -/
def SimdReal.gcross_vec (w : SimdReal) (v : SimdVector) : SimdVector :=
  fun ii => Vec2.gcross_scalar (w ii) (v ii)

/-- Lane-wise vector-by-scalar product (`v * k` with `k : SimdReal`). -/
def SimdVector.mul_real (v : SimdVector) (k : SimdReal) : SimdVector :=
  fun ii => Vec2.smul (k ii) (v ii)

/-- Lane-wise orthonormal complement (2-D `orthonormal_basis`, single tangent). -/
def SimdVector.orthonormal_complement (v : SimdVector) : SimdVector :=
  fun ii => (v ii).orthonormal_complement

/-- Lane-wise isometry application. -/
def SimdIsometry.transform_point (m : SimdIsometry) (p : SimdVector) : SimdVector :=
  fun ii => (m ii).transform_point (p ii)

/-- Lane-wise inverse isometry application. -/
def SimdIsometry.inverse_transform_point (m : SimdIsometry) (p : SimdVector) :
    SimdVector :=
  fun ii => (m ii).inverse_transform_point (p ii)

/-! ### Data gathered from the external stores -/

/-- `ContactPointInfos<SimdReal>`: the builder's per-contact cache. -/
structure ContactPointInfos where
  local_p1 : SimdVector
  local_p2 : SimdVector
  tangent_vel : SimdVector
  dist : SimdReal
  normal_rhs_wo_bias : SimdReal

/-- `TwoBodyConstraintNormalPart<SimdReal>` (2-D: the angular factors
`gcross1`/`gcross2` are scalars per lane). -/
structure TwoBodyConstraintNormalPart where
  gcross1 : SimdReal
  gcross2 : SimdReal
  rhs : SimdReal
  rhs_wo_bias : SimdReal
  impulse : SimdReal
  total_impulse : SimdReal
  r : SimdReal

/-- `TwoBodyConstraintTangentPart<SimdReal>` (2-D: the `DIM - 1 = 1` tangent
direction, so all per-direction arrays collapse to scalars). -/
structure TwoBodyConstraintTangentPart where
  gcross1 : SimdReal
  gcross2 : SimdReal
  rhs : SimdReal
  rhs_wo_bias : SimdReal
  impulse : SimdReal
  total_impulse : SimdReal
  r : SimdReal

/-- `TwoBodyConstraintElement<SimdReal>`: one contact point's normal and
tangent constraint rows. -/
structure TwoBodyConstraintElement where
  normal_part : TwoBodyConstraintNormalPart
  tangent_part : TwoBodyConstraintTangentPart

/-- `TwoBodyConstraintSimd`: one batch of up to `MAX_MANIFOLD_POINTS` contact
rows across `SIMD_WIDTH` lanes. `elements` models the fixed
`[TwoBodyConstraintElement; MAX_MANIFOLD_POINTS]` array as a list. -/
structure TwoBodyConstraintSimd where
  dir1 : SimdVector
  elements : List TwoBodyConstraintElement
  num_contacts : ℕ
  im1 : SimdVector
  im2 : SimdVector
  cfm_factor : SimdReal
  limit : SimdReal
  solver_vel1 : Fin SIMD_WIDTH → ℕ
  solver_vel2 : Fin SIMD_WIDTH → ℕ
  manifold_id : Fin SIMD_WIDTH → ℕ
  manifold_contact_id : List (Fin SIMD_WIDTH → ℕ)

/-- `TwoBodyConstraintBuilderSimd`: the per-batch cache of
`[ContactPointInfos; MAX_MANIFOLD_POINTS]`. -/
structure TwoBodyConstraintBuilderSimd where
  infos : List ContactPointInfos

/-- Modelled from the spec: `IntegrationParameters` (its source file is outside
this snapshot) exposes the recognized options `dt`, `allowed_linear_error`,
`max_penetration_correction`, `cfm_factor`, `erp` and the derived quantities
`inv_dt`, `erp_inv_dt`; the methods `cfm_factor()`, `inv_dt()`, `erp_inv_dt()`
are modelled as record fields. -/
structure IntegrationParameters where
  dt : ℚ
  inv_dt : ℚ
  allowed_linear_error : ℚ
  erp_inv_dt : ℚ
  max_penetration_correction : ℚ
  cfm_factor : ℚ

/-- The fields of `SolverBody` read by `update` (current pose and the
continuous-collision safety thickness); the full struct lives outside this
snapshot. -/
structure SolverBody where
  position : Iso2
  ccd_thickness : ℚ

/-! ### The solver update (bias-refresh) pass -/

/-- The body of `update`'s per-contact loop: recompute the world-space points
and penetration distance from the cached infos, refresh the normal and tangent
right-hand sides, roll the incremental impulses into the totals, and report
this contact's "fast contact" mask. -/
def updateOne (dir1 tangents1 : SimdVector)
    (dt inv_dt allowed_lin_err erp_inv_dt max_penetration_correction : SimdReal)
    (ccd_thickness solved_dt : SimdReal) (poss1 poss2 : SimdIsometry)
    (info : ContactPointInfos) (element : TwoBodyConstraintElement) :
    TwoBodyConstraintElement × SimdBool :=
  let p1 := SimdIsometry.transform_point poss1 info.local_p1 +
    SimdVector.mul_real info.tangent_vel solved_dt
  let p2 := SimdIsometry.transform_point poss2 info.local_p2
  let dist := info.dist + SimdVector.dot (p1 - p2) dir1
  let rhs_wo_bias := info.normal_rhs_wo_bias +
    SimdReal.simd_max dist (SimdReal.splat 0) * inv_dt
  let rhs_bias := SimdReal.simd_clamp (dist + allowed_lin_err)
    (-max_penetration_correction) (SimdReal.splat 0) * erp_inv_dt
  let new_rhs := rhs_wo_bias + rhs_bias
  let total_impulse := element.normal_part.total_impulse + element.normal_part.impulse
  let is_fast := SimdReal.simd_gt (-new_rhs * dt)
    (ccd_thickness * SimdReal.splat (1/2))
  let normal_part :=
    { element.normal_part with
      rhs_wo_bias := rhs_wo_bias
      rhs := new_rhs
      total_impulse := total_impulse
      impulse := SimdReal.splat 0 }
  let bias := SimdVector.dot (p1 - p2) tangents1 * inv_dt
  let tangent_part :=
    { element.tangent_part with
      total_impulse := element.tangent_part.total_impulse + element.tangent_part.impulse
      impulse := SimdReal.splat 0
      rhs := element.tangent_part.rhs_wo_bias + bias }
  ({ normal_part := normal_part, tangent_part := tangent_part }, is_fast)

/-- `TwoBodyConstraintBuilderSimd::update`: refresh the bias terms of the first
`num_contacts` elements from the current body poses, fold the per-contact
"fast contact" masks with a lane-wise OR, and relax the lane's CFM factor to 1
wherever some contact of the lane is fast. -/
def TwoBodyConstraintBuilderSimd.update (self : TwoBodyConstraintBuilderSimd)
    (params : IntegrationParameters) (solved_dt : ℚ) (bodies : ℕ → SolverBody)
    (constraint : TwoBodyConstraintSimd) : TwoBodyConstraintSimd :=
  let cfm_factor := SimdReal.splat params.cfm_factor
  let dt := SimdReal.splat params.dt
  let inv_dt := SimdReal.splat params.inv_dt
  let allowed_lin_err := SimdReal.splat params.allowed_linear_error
  let erp_inv_dt := SimdReal.splat params.erp_inv_dt
  let max_penetration_correction := SimdReal.splat params.max_penetration_correction
  let rb1 := fun ii => bodies (constraint.solver_vel1 ii)
  let rb2 := fun ii => bodies (constraint.solver_vel2 ii)
  let ccd_thickness : SimdReal :=
    (fun ii => (rb1 ii).ccd_thickness) + fun ii => (rb2 ii).ccd_thickness
  let poss1 : SimdIsometry := fun ii => (rb1 ii).position
  let poss2 : SimdIsometry := fun ii => (rb2 ii).position
  let all_infos := self.infos.take constraint.num_contacts
  let all_elements := constraint.elements.take constraint.num_contacts
  let tangents1 := SimdVector.orthonormal_complement constraint.dir1
  let solved_dt := SimdReal.splat solved_dt
  let processed := (all_infos.zip all_elements).map fun p =>
    updateOne constraint.dir1 tangents1 dt inv_dt allowed_lin_err erp_inv_dt
      max_penetration_correction ccd_thickness solved_dt poss1 poss2 p.1 p.2
  let is_fast_contact : SimdBool := fun ii => processed.any fun q => q.2 ii
  { constraint with
    elements := processed.map Prod.fst ++
      constraint.elements.drop constraint.num_contacts
    cfm_factor := (SimdReal.splat 1).select is_fast_contact cfm_factor }

/-! ### Facts about the update pass -/

/-- The arguments `update` feeds to its per-contact loop body, bundled so the
per-element characterisation below can name them. -/
def updateArgs (params : IntegrationParameters) (solved_dt : ℚ)
    (bodies : ℕ → SolverBody) (constraint : TwoBodyConstraintSimd)
    (info : ContactPointInfos) (elt : TwoBodyConstraintElement) :
    TwoBodyConstraintElement × SimdBool :=
  updateOne constraint.dir1 (SimdVector.orthonormal_complement constraint.dir1)
    (SimdReal.splat params.dt) (SimdReal.splat params.inv_dt)
    (SimdReal.splat params.allowed_linear_error) (SimdReal.splat params.erp_inv_dt)
    (SimdReal.splat params.max_penetration_correction)
    ((fun ii => (bodies (constraint.solver_vel1 ii)).ccd_thickness) +
      fun ii => (bodies (constraint.solver_vel2 ii)).ccd_thickness)
    (SimdReal.splat solved_dt)
    (fun ii => (bodies (constraint.solver_vel1 ii)).position)
    (fun ii => (bodies (constraint.solver_vel2 ii)).position) info elt

/-- Element `k` of an updated constraint is the loop body applied to element
`k` of the inputs. -/
theorem update_elements_getElem (self : TwoBodyConstraintBuilderSimd)
    (params : IntegrationParameters) (solved_dt : ℚ) (bodies : ℕ → SolverBody)
    (constraint : TwoBodyConstraintSimd) (k : ℕ) (info : ContactPointInfos)
    (elt : TwoBodyConstraintElement) (hk : k < constraint.num_contacts)
    (hi : self.infos[k]? = some info) (he : constraint.elements[k]? = some elt) :
    (self.update params solved_dt bodies constraint).elements[k]? =
      some (updateArgs params solved_dt bodies constraint info elt).1 := by
  have htake1 : (self.infos.take constraint.num_contacts)[k]? = some info := by
    rw [List.getElem?_take, if_pos hk]; exact hi
  have htake2 : (constraint.elements.take constraint.num_contacts)[k]? = some elt := by
    rw [List.getElem?_take, if_pos hk]; exact he
  have hzip : ((self.infos.take constraint.num_contacts).zip
      (constraint.elements.take constraint.num_contacts))[k]? = some (info, elt) := by
    rw [List.getElem?_zip_eq_some]; exact ⟨htake1, htake2⟩
  have hklen := (List.getElem?_eq_some.mp hzip).1
  simp only [TwoBodyConstraintBuilderSimd.update]
  rw [List.getElem?_append, if_pos (by simpa using hklen), List.getElem?_map,
    List.getElem?_map, hzip]
  rfl

/-- C5: in every `update` call, for every active contact element, the normal
right-hand side is set to `normal_rhs_wo_bias + max(0, dist) * inv_dt +
clamp(dist + allowed_linear_error, -max_penetration_correction, 0) * erp_inv_dt`,
where `dist` is the cached penetration distance plus the projection onto the
contact normal of the displacement between the recomputed world-space points
(first body's cached local point under its current pose, offset by
`tangent_vel * solved_dt`, minus the second body's transformed cached point). -/
theorem claim_C5_normal_rhs (self : TwoBodyConstraintBuilderSimd)
    (params : IntegrationParameters) (solved_dt : ℚ) (bodies : ℕ → SolverBody)
    (constraint : TwoBodyConstraintSimd) (k : ℕ) (info : ContactPointInfos)
    (elt : TwoBodyConstraintElement) (hk : k < constraint.num_contacts)
    (hi : self.infos[k]? = some info) (he : constraint.elements[k]? = some elt) :
    ((self.update params solved_dt bodies constraint).elements[k]?).map
        (fun e => e.normal_part.rhs) =
      some (fun ii =>
        let p1 := (bodies (constraint.solver_vel1 ii)).position.transform_point
          (info.local_p1 ii) + Vec2.smul solved_dt (info.tangent_vel ii)
        let p2 := (bodies (constraint.solver_vel2 ii)).position.transform_point
          (info.local_p2 ii)
        let dist := info.dist ii + (p1 - p2).dot (constraint.dir1 ii)
        info.normal_rhs_wo_bias ii + max 0 dist * params.inv_dt +
          min (max (dist + params.allowed_linear_error)
            (-params.max_penetration_correction)) 0 * params.erp_inv_dt) := by
  rw [update_elements_getElem self params solved_dt bodies constraint k info elt hk hi he]
  simp only [Option.map_some']
  congr 1
  funext ii
  simp only [updateArgs, updateOne, SimdReal.simd_max, SimdReal.simd_clamp,
    SimdReal.splat, SimdVector.dot, SimdVector.mul_real, SimdIsometry.transform_point,
    Pi.add_apply, Pi.sub_apply, Pi.mul_apply, Pi.neg_apply]
  rw [max_comm _ (0 : ℚ)]

/-- The "fast contact" mask produced by the loop body is exactly the test
"projected bias-driven normal displacement over one full step exceeds half the
combined CCD thickness", expressed on the element's refreshed normal rhs. -/
theorem updateArgs_snd_eq (params : IntegrationParameters) (solved_dt : ℚ)
    (bodies : ℕ → SolverBody) (constraint : TwoBodyConstraintSimd)
    (info : ContactPointInfos) (elt : TwoBodyConstraintElement) (ii : Fin SIMD_WIDTH) :
    (updateArgs params solved_dt bodies constraint info elt).2 ii =
      decide (((bodies (constraint.solver_vel1 ii)).ccd_thickness +
        (bodies (constraint.solver_vel2 ii)).ccd_thickness) * (1/2) <
        -((updateArgs params solved_dt bodies constraint info elt).1.normal_part.rhs ii) *
          params.dt) := rfl

open Classical in
/-- The per-lane CFM factor after `update`: 1 when some processed contact's
fast mask fired in that lane, the configured factor otherwise. -/
theorem update_cfm_eq (self : TwoBodyConstraintBuilderSimd)
    (params : IntegrationParameters) (solved_dt : ℚ) (bodies : ℕ → SolverBody)
    (constraint : TwoBodyConstraintSimd) (ii : Fin SIMD_WIDTH) :
    (self.update params solved_dt bodies constraint).cfm_factor ii =
      if ∃ k info elt, k < constraint.num_contacts ∧ self.infos[k]? = some info ∧
          constraint.elements[k]? = some elt ∧
          (updateArgs params solved_dt bodies constraint info elt).2 ii = true
      then 1 else params.cfm_factor := by
  by_cases hex : ∃ k info elt, k < constraint.num_contacts ∧
      self.infos[k]? = some info ∧ constraint.elements[k]? = some elt ∧
      (updateArgs params solved_dt bodies constraint info elt).2 ii = true
  · rw [if_pos hex]
    obtain ⟨k, info, elt, hk, hi, he, hflag⟩ := hex
    have htake1 : (self.infos.take constraint.num_contacts)[k]? = some info := by
      rw [List.getElem?_take, if_pos hk]; exact hi
    have htake2 : (constraint.elements.take constraint.num_contacts)[k]? = some elt := by
      rw [List.getElem?_take, if_pos hk]; exact he
    have hzip : ((self.infos.take constraint.num_contacts).zip
        (constraint.elements.take constraint.num_contacts))[k]? = some (info, elt) := by
      rw [List.getElem?_zip_eq_some]; exact ⟨htake1, htake2⟩
    have hany : (((self.infos.take constraint.num_contacts).zip
        (constraint.elements.take constraint.num_contacts)).map fun p =>
          updateArgs params solved_dt bodies constraint p.1 p.2).any
            (fun q => q.2 ii) = true := by
      rw [List.any_eq_true]
      refine ⟨updateArgs params solved_dt bodies constraint info elt, ?_, hflag⟩
      exact List.mem_iff_getElem?.mpr ⟨k, by rw [List.getElem?_map, hzip]; rfl⟩
    rw [show ((self.update params solved_dt bodies constraint).cfm_factor : SimdReal) =
      SimdReal.select (SimdReal.splat 1) (fun jj =>
        (((self.infos.take constraint.num_contacts).zip
          (constraint.elements.take constraint.num_contacts)).map fun p =>
            updateArgs params solved_dt bodies constraint p.1 p.2).any fun q => q.2 jj)
        (SimdReal.splat params.cfm_factor) from rfl]
    rw [SimdReal.select, hany]
    rfl
  · rw [if_neg hex]
    have hany : (((self.infos.take constraint.num_contacts).zip
        (constraint.elements.take constraint.num_contacts)).map fun p =>
          updateArgs params solved_dt bodies constraint p.1 p.2).any
            (fun q => q.2 ii) = false := by
      rw [Bool.eq_false_iff]
      intro hcontra
      rw [List.any_eq_true] at hcontra
      obtain ⟨q, hqmem, hq⟩ := hcontra
      obtain ⟨k, hq?⟩ := List.mem_iff_getElem?.mp hqmem
      rw [List.getElem?_map] at hq?
      cases hzq : ((self.infos.take constraint.num_contacts).zip
          (constraint.elements.take constraint.num_contacts))[k]? with
      | none => rw [hzq] at hq?; simp at hq?
      | some p =>
        rw [hzq] at hq?
        obtain ⟨hp1, hp2⟩ := List.getElem?_zip_eq_some.mp
          (show _ = some (p.1, p.2) by rw [hzq])
        have hk : k < constraint.num_contacts := by
          have := (List.getElem?_eq_some.mp hp1).1
          simp only [List.length_take, lt_min_iff] at this
          exact this.1
        rw [List.getElem?_take, if_pos hk] at hp1
        rw [List.getElem?_take, if_pos hk] at hp2
        simp only [Option.map_some', Option.some.injEq] at hq?
        exact hex ⟨k, p.1, p.2, hk, hp1, hp2, by rw [hq?]; exact hq⟩
    rw [show ((self.update params solved_dt bodies constraint).cfm_factor : SimdReal) =
      SimdReal.select (SimdReal.splat 1) (fun jj =>
        (((self.infos.take constraint.num_contacts).zip
          (constraint.elements.take constraint.num_contacts)).map fun p =>
            updateArgs params solved_dt bodies constraint p.1 p.2).any fun q => q.2 jj)
        (SimdReal.splat params.cfm_factor) from rfl]
    rw [SimdReal.select, hany]
    rfl

/-- C6: in every `update` call, the per-contact fast-contact flag fires exactly
when the projected bias-driven normal displacement over one full step
(`-rhs * dt`) exceeds half the combined continuous-collision safety thickness
of the two bodies; a lane with some fast contact gets CFM factor 1 (full
stiffness) for the substep, and a lane with none keeps the configured
`cfm_factor`. -/
theorem claim_C6_fast_contact_cfm (self : TwoBodyConstraintBuilderSimd)
    (params : IntegrationParameters) (solved_dt : ℚ) (bodies : ℕ → SolverBody)
    (constraint : TwoBodyConstraintSimd)
    (h1 : constraint.num_contacts ≤ self.infos.length)
    (h2 : constraint.num_contacts ≤ constraint.elements.length)
    (ii : Fin SIMD_WIDTH) :
    ((∃ k e', k < constraint.num_contacts ∧
        (self.update params solved_dt bodies constraint).elements[k]? = some e' ∧
        ((bodies (constraint.solver_vel1 ii)).ccd_thickness +
          (bodies (constraint.solver_vel2 ii)).ccd_thickness) * (1/2) <
          -(e'.normal_part.rhs ii) * params.dt) →
      (self.update params solved_dt bodies constraint).cfm_factor ii = 1) ∧
    ((∀ k e', k < constraint.num_contacts →
        (self.update params solved_dt bodies constraint).elements[k]? = some e' →
        ¬(((bodies (constraint.solver_vel1 ii)).ccd_thickness +
          (bodies (constraint.solver_vel2 ii)).ccd_thickness) * (1/2) <
          -(e'.normal_part.rhs ii) * params.dt)) →
      (self.update params solved_dt bodies constraint).cfm_factor ii =
        params.cfm_factor) := by
  have hmain : ∀ k, k < constraint.num_contacts → ∃ info elt,
      self.infos[k]? = some info ∧ constraint.elements[k]? = some elt := by
    intro k hk
    cases hq1 : self.infos[k]? with
    | none => rw [List.getElem?_eq_none_iff] at hq1; omega
    | some info =>
      cases hq2 : constraint.elements[k]? with
      | none => rw [List.getElem?_eq_none_iff] at hq2; omega
      | some elt => exact ⟨info, elt, rfl, rfl⟩
  constructor
  · rintro ⟨k, e', hk, he', hlt⟩
    obtain ⟨info, elt, hi, he⟩ := hmain k hk
    have hupd := update_elements_getElem self params solved_dt bodies constraint
      k info elt hk hi he
    rw [hupd] at he'
    injection he' with he'
    have hex : ∃ k info elt, k < constraint.num_contacts ∧
        self.infos[k]? = some info ∧ constraint.elements[k]? = some elt ∧
        (updateArgs params solved_dt bodies constraint info elt).2 ii = true :=
      ⟨k, info, elt, hk, hi, he, by
        rw [updateArgs_snd_eq, decide_eq_true_eq, he']; exact hlt⟩
    rw [update_cfm_eq self params solved_dt bodies constraint ii, if_pos hex]
  · intro hall
    have hex : ¬ ∃ k info elt, k < constraint.num_contacts ∧
        self.infos[k]? = some info ∧ constraint.elements[k]? = some elt ∧
        (updateArgs params solved_dt bodies constraint info elt).2 ii = true := by
      rintro ⟨k, info, elt, hk, hi, he, hflag⟩
      have hupd := update_elements_getElem self params solved_dt bodies constraint
        k info elt hk hi he
      rw [updateArgs_snd_eq, decide_eq_true_eq] at hflag
      exact hall k _ hk hupd hflag
    rw [update_cfm_eq self params solved_dt bodies constraint ii, if_neg hex]

/-! ### Concrete fixtures for the solver witnesses -/

/-- A concrete builder cache entry. -/
def wInfo : ContactPointInfos :=
  { local_p1 := fun _ => ⟨1, 0⟩
    local_p2 := fun _ => ⟨0, 1⟩
    tangent_vel := fun _ => ⟨0, 0⟩
    dist := fun _ => -1/10
    normal_rhs_wo_bias := fun _ => 2 }

/-- Concrete integration parameters. -/
def wParams : IntegrationParameters :=
  { dt := 1, inv_dt := 1, allowed_linear_error := 1/1000, erp_inv_dt := 4/5,
    max_penetration_correction := 100, cfm_factor := 9/10 }

/-- A concrete solver body. -/
def wBody : SolverBody := { position := ⟨1, 0, ⟨0, 0⟩⟩, ccd_thickness := 1/2 }

/-- A concrete constraint element with nonzero impulses. -/
def wElement : TwoBodyConstraintElement :=
  { normal_part :=
    { gcross1 := fun _ => 0, gcross2 := fun _ => 0, rhs := fun _ => 0
      rhs_wo_bias := fun _ => 0, impulse := fun _ => 3, total_impulse := fun _ => 4
      r := fun _ => 1 }
    tangent_part :=
    { gcross1 := fun _ => 0, gcross2 := fun _ => 0, rhs := fun _ => 0
      rhs_wo_bias := fun _ => 0, impulse := fun _ => 5, total_impulse := fun _ => 6
      r := fun _ => 1 } }

/-- A concrete one-contact constraint batch. -/
def wConstraint : TwoBodyConstraintSimd :=
  { dir1 := fun _ => ⟨0, 1⟩
    elements := [wElement, wElement]
    num_contacts := 1
    im1 := fun _ => ⟨1, 1⟩
    im2 := fun _ => ⟨1, 1⟩
    cfm_factor := fun _ => 1
    limit := fun _ => 1
    solver_vel1 := fun _ => 0
    solver_vel2 := fun _ => 1
    manifold_id := fun _ => 0
    manifold_contact_id := [fun _ => 0, fun _ => 0] }

/-- A concrete builder. -/
def wBuilder : TwoBodyConstraintBuilderSimd := { infos := [wInfo, wInfo] }

/-- Witness for C5 at contact 0 of the concrete fixture. -/
theorem claim_C5_witness :
    ((wBuilder.update wParams 0 (fun _ => wBody) wConstraint).elements[0]?).map
        (fun e => e.normal_part.rhs) =
      some (fun ii =>
        let p1 := wBody.position.transform_point (wInfo.local_p1 ii) +
          Vec2.smul 0 (wInfo.tangent_vel ii)
        let p2 := wBody.position.transform_point (wInfo.local_p2 ii)
        let dist := wInfo.dist ii + (p1 - p2).dot (wConstraint.dir1 ii)
        wInfo.normal_rhs_wo_bias ii + max 0 dist * wParams.inv_dt +
          min (max (dist + wParams.allowed_linear_error)
            (-wParams.max_penetration_correction)) 0 * wParams.erp_inv_dt) :=
  claim_C5_normal_rhs wBuilder wParams 0 (fun _ => wBody) wConstraint 0 wInfo
    wElement (by decide) rfl rfl

/-- Witness for C6 on the concrete fixture, lane 0. -/
theorem claim_C6_witness :
    ((∃ k e', k < wConstraint.num_contacts ∧
        (wBuilder.update wParams 0 (fun _ => wBody) wConstraint).elements[k]? = some e' ∧
        (wBody.ccd_thickness + wBody.ccd_thickness) * (1/2) <
          -(e'.normal_part.rhs 0) * wParams.dt) →
      (wBuilder.update wParams 0 (fun _ => wBody) wConstraint).cfm_factor 0 = 1) ∧
    ((∀ k e', k < wConstraint.num_contacts →
        (wBuilder.update wParams 0 (fun _ => wBody) wConstraint).elements[k]? = some e' →
        ¬((wBody.ccd_thickness + wBody.ccd_thickness) * (1/2) <
          -(e'.normal_part.rhs 0) * wParams.dt)) →
      (wBuilder.update wParams 0 (fun _ => wBody) wConstraint).cfm_factor 0 =
        wParams.cfm_factor) :=
  claim_C6_fast_contact_cfm wBuilder wParams 0 (fun _ => wBody) wConstraint
    (by decide) (by decide) 0

/-! ### The builder pass (`generate`)

`generate` reads, per lane, a contact manifold and the two referenced rigid
bodies, and fills one constraint batch (plus one builder cache) per group of
up to `MAX_MANIFOLD_POINTS` active contacts. Failed `assert!`s and
out-of-bounds indexing/slicing become `none`. -/

/-- The fields of `SolverContact` read by `generate` (`is_bouncy()` is kept as
a data field; its derivation lives outside this snapshot). -/
structure SolverContact where
  friction : ℚ
  restitution : ℚ
  is_bouncy : Bool
  dist : ℚ
  point : Vec2
  tangent_velocity : Vec2
  contact_id : ℕ
deriving DecidableEq, Repr

/-- The fields of `ContactManifoldData` read by `generate`; the `rigid_body1`
and `rigid_body2` handles are modelled as plain body-store keys (the source's
`Option::unwrap` of the handles is assumed to succeed). -/
structure ContactManifoldData where
  relative_dominance : ℤ
  normal : Vec2
  rigid_body1 : ℕ
  rigid_body2 : ℕ
  num_active_contacts : ℕ
  solver_contacts : List SolverContact

/-- `ContactManifold` (only its `data` part is read). -/
structure ContactManifold where
  data : ContactManifoldData

/-- `Velocity`: linear and (2-D scalar) angular velocity. -/
structure Velocity where
  linvel : Vec2
  angvel : ℚ

/-- The `RigidBodyIds` field read by `generate`. -/
structure RigidBodyIds where
  active_set_offset : ℕ

/-- The `RigidBodyMassProps` fields read by `generate`. -/
structure RigidBodyMassProps where
  world_com : Vec2
  effective_inv_mass : Vec2
  effective_world_inv_inertia_sqrt : ℚ

/-- The `RigidBodyPosition` field read by `generate`. -/
structure RigidBodyPos where
  position : Iso2

/-- The rigid-body fields read by `generate`; the body store is modelled as a
total map from handles to bodies. -/
structure RigidBody where
  pos : RigidBodyPos
  vels : Velocity
  ids : RigidBodyIds
  mprops : RigidBodyMassProps

/-- Default values standing for uninitialised slots (never observed on
successful runs: every access is bounds-checked before use). -/
def defaultSolverContact : SolverContact :=
  ⟨0, 0, false, 0, ⟨0, 0⟩, ⟨0, 0⟩, 0⟩

/-- Default constraint element. -/
def defaultElement : TwoBodyConstraintElement :=
  { normal_part :=
    { gcross1 := SimdReal.splat 0, gcross2 := SimdReal.splat 0
      rhs := SimdReal.splat 0, rhs_wo_bias := SimdReal.splat 0
      impulse := SimdReal.splat 0, total_impulse := SimdReal.splat 0
      r := SimdReal.splat 0 }
    tangent_part :=
    { gcross1 := SimdReal.splat 0, gcross2 := SimdReal.splat 0
      rhs := SimdReal.splat 0, rhs_wo_bias := SimdReal.splat 0
      impulse := SimdReal.splat 0, total_impulse := SimdReal.splat 0
      r := SimdReal.splat 0 } }

/-- Default (zeroed) constraint batch. -/
def defaultConstraint : TwoBodyConstraintSimd :=
  { dir1 := fun _ => ⟨0, 0⟩
    elements := List.replicate MAX_MANIFOLD_POINTS defaultElement
    num_contacts := 0
    im1 := fun _ => ⟨0, 0⟩
    im2 := fun _ => ⟨0, 0⟩
    cfm_factor := SimdReal.splat 0
    limit := SimdReal.splat 0
    solver_vel1 := fun _ => 0
    solver_vel2 := fun _ => 0
    manifold_id := fun _ => 0
    manifold_contact_id := List.replicate MAX_MANIFOLD_POINTS fun _ => 0 }

/-- Default (empty) builder cache. -/
def defaultBuilder : TwoBodyConstraintBuilderSimd :=
  ⟨List.replicate MAX_MANIFOLD_POINTS
    { local_p1 := fun _ => ⟨0, 0⟩, local_p2 := fun _ => ⟨0, 0⟩
      tangent_vel := fun _ => ⟨0, 0⟩, dist := SimdReal.splat 0
      normal_rhs_wo_bias := SimdReal.splat 0 }⟩

/-- The lane-wise data `generate` gathers once per call before its group loop. -/
structure GenGather where
  manifolds : Fin SIMD_WIDTH → ContactManifold
  manifold_id : Fin SIMD_WIDTH → ℕ
  poss1 : SimdIsometry
  poss2 : SimdIsometry
  world_com1 : SimdVector
  world_com2 : SimdVector
  im1 : SimdVector
  im2 : SimdVector
  ii1 : SimdReal
  ii2 : SimdReal
  linvel1 : SimdVector
  linvel2 : SimdVector
  angvel1 : SimdReal
  angvel2 : SimdReal
  force_dir1 : SimdVector
  tangents1 : SimdVector
  solver_vel1 : Fin SIMD_WIDTH → ℕ
  solver_vel2 : Fin SIMD_WIDTH → ℕ

/-- The gathering prologue of `generate` (the block of `gather!` calls). -/
def mkGather (manifold_id : Fin SIMD_WIDTH → ℕ)
    (manifolds : Fin SIMD_WIDTH → ContactManifold) (bodies : ℕ → RigidBody) :
    GenGather :=
  let handles1 := fun ii => (manifolds ii).data.rigid_body1
  let handles2 := fun ii => (manifolds ii).data.rigid_body2
  let force_dir1 : SimdVector := -fun ii => (manifolds ii).data.normal
  { manifolds := manifolds
    manifold_id := manifold_id
    poss1 := fun ii => (bodies (handles1 ii)).pos.position
    poss2 := fun ii => (bodies (handles2 ii)).pos.position
    world_com1 := fun ii => (bodies (handles1 ii)).mprops.world_com
    world_com2 := fun ii => (bodies (handles2 ii)).mprops.world_com
    im1 := fun ii => (bodies (handles1 ii)).mprops.effective_inv_mass
    im2 := fun ii => (bodies (handles2 ii)).mprops.effective_inv_mass
    ii1 := fun ii => (bodies (handles1 ii)).mprops.effective_world_inv_inertia_sqrt
    ii2 := fun ii => (bodies (handles2 ii)).mprops.effective_world_inv_inertia_sqrt
    linvel1 := fun ii => (bodies (handles1 ii)).vels.linvel
    linvel2 := fun ii => (bodies (handles2 ii)).vels.linvel
    angvel1 := fun ii => (bodies (handles1 ii)).vels.angvel
    angvel2 := fun ii => (bodies (handles2 ii)).vels.angvel
    force_dir1 := force_dir1
    tangents1 := SimdVector.orthonormal_complement force_dir1
    solver_vel1 := fun ii => (bodies (handles1 ii)).ids.active_set_offset
    solver_vel2 := fun ii => (bodies (handles2 ii)).ids.active_set_offset }

/-- The lane-wise gathers of contact point `k` of a group
(`manifold_points[ii][k]` fields). -/
structure PointData where
  friction : SimdReal
  restitution : SimdReal
  is_bouncy : SimdReal
  dist : SimdReal
  point : SimdVector
  tangent_velocity : SimdVector
  contact_id : Fin SIMD_WIDTH → ℕ

/-- Gather contact point `k` from each lane's group slice. -/
def pointData (mp : Fin SIMD_WIDTH → List SolverContact) (k : ℕ) : PointData :=
  { friction := fun ii => ((mp ii).getD k defaultSolverContact).friction
    restitution := fun ii => ((mp ii).getD k defaultSolverContact).restitution
    is_bouncy := fun ii =>
      if ((mp ii).getD k defaultSolverContact).is_bouncy then 1 else 0
    dist := fun ii => ((mp ii).getD k defaultSolverContact).dist
    point := fun ii => ((mp ii).getD k defaultSolverContact).point
    tangent_velocity := fun ii =>
      ((mp ii).getD k defaultSolverContact).tangent_velocity
    contact_id := fun ii => ((mp ii).getD k defaultSolverContact).contact_id }

/-- The constraint element written for contact point `k`: the normal part is
replaced wholesale (all impulses zeroed), while on the tangent part only the
incremental impulse and the geometric/rhs fields are written — the tangent
total impulse of the pre-existing element is left untouched. -/
def generatedElement (g : GenGather) (mp : Fin SIMD_WIDTH → List SolverContact)
    (k : ℕ) (oldElt : TwoBodyConstraintElement) : TwoBodyConstraintElement :=
  let pd := pointData mp k
  let dp1 := pd.point - g.world_com1
  let dp2 := pd.point - g.world_com2
  let gcross1 := g.ii1 * SimdVector.gcross dp1 g.force_dir1
  let gcross2 := g.ii2 * SimdVector.gcross dp2 (-g.force_dir1)
  let imsum := g.im1 + g.im2
  let projected_mass := simd_inv
    (SimdVector.dot g.force_dir1 (SimdVector.component_mul imsum g.force_dir1) +
      gcross1 * gcross1 + gcross2 * gcross2)
  let tgcross1 := g.ii1 * SimdVector.gcross dp1 g.tangents1
  let tgcross2 := g.ii2 * SimdVector.gcross dp2 (-g.tangents1)
  let r := SimdVector.dot g.tangents1 (SimdVector.component_mul imsum g.tangents1) +
    tgcross1 * tgcross1 + tgcross2 * tgcross2
  let rhs_wo_bias := SimdVector.dot pd.tangent_velocity g.tangents1
  { normal_part :=
      { gcross1 := gcross1, gcross2 := gcross2, rhs := SimdReal.splat 0
        rhs_wo_bias := SimdReal.splat 0, impulse := SimdReal.splat 0
        total_impulse := SimdReal.splat 0, r := projected_mass }
    tangent_part :=
      { oldElt.tangent_part with
        impulse := SimdReal.splat 0
        gcross1 := tgcross1, gcross2 := tgcross2
        rhs_wo_bias := rhs_wo_bias, rhs := rhs_wo_bias
        r := simd_inv r } }

/-- The builder cache entry written for contact point `k`. -/
def generatedInfos (g : GenGather) (mp : Fin SIMD_WIDTH → List SolverContact)
    (k : ℕ) : ContactPointInfos :=
  let pd := pointData mp k
  let dp1 := pd.point - g.world_com1
  let dp2 := pd.point - g.world_com2
  let vel1 := g.linvel1 + SimdReal.gcross_vec g.angvel1 dp1
  let vel2 := g.linvel2 + SimdReal.gcross_vec g.angvel2 dp2
  let projected_velocity := SimdVector.dot (vel1 - vel2) g.force_dir1
  { local_p1 := SimdIsometry.inverse_transform_point g.poss1 pd.point
    local_p2 := SimdIsometry.inverse_transform_point g.poss2 pd.point
    tangent_vel := pd.tangent_velocity
    dist := pd.dist
    normal_rhs_wo_bias := pd.is_bouncy * pd.restitution * projected_velocity }

/-- The body of `generate`'s inner contact-point loop at index `k`: overwrite
the lane friction limit, record the contact identities, write element `k` and
builder cache entry `k`. -/
def generatePoint (g : GenGather) (mp : Fin SIMD_WIDTH → List SolverContact)
    (k : ℕ) (cb : TwoBodyConstraintSimd × TwoBodyConstraintBuilderSimd) :
    TwoBodyConstraintSimd × TwoBodyConstraintBuilderSimd :=
  let pd := pointData mp k
  let constraint :=
    { cb.1 with
      limit := pd.friction
      manifold_contact_id := cb.1.manifold_contact_id.set k pd.contact_id
      elements := cb.1.elements.set k
        (generatedElement g mp k (cb.1.elements.getD k defaultElement)) }
  let builder : TwoBodyConstraintBuilderSimd :=
    ⟨cb.2.infos.set k (generatedInfos g mp k)⟩
  (constraint, builder)

/-- `generate`'s inner loop over the contact points of one group. -/
def pointsFold (g : GenGather) (mp : Fin SIMD_WIDTH → List SolverContact) :
    List ℕ → TwoBodyConstraintSimd × TwoBodyConstraintBuilderSimd →
      TwoBodyConstraintSimd × TwoBodyConstraintBuilderSimd
  | [], cb => cb
  | k :: ks, cb => pointsFold g mp ks (generatePoint g mp k cb)

/-- One iteration of `generate`'s group loop at offset `l`, acting on the
constraint and the builder of that group: slice each lane's solver contacts to
`[l..num_active_contacts]`, set the shared per-lane metadata (`num_contacts`
is the lane-0 group length capped at `MAX_MANIFOLD_POINTS`), then run the
contact-point loop. -/
def groupOut (g : GenGather) (n0 l : ℕ) (c0 : TwoBodyConstraintSimd)
    (b0 : TwoBodyConstraintBuilderSimd) :
    TwoBodyConstraintSimd × TwoBodyConstraintBuilderSimd :=
  let manifold_points := fun ii =>
    ((g.manifolds ii).data.solver_contacts.drop l).take (n0 - l)
  let num_points := min (manifold_points 0).length MAX_MANIFOLD_POINTS
  let constraint :=
    { c0 with
      dir1 := g.force_dir1
      im1 := g.im1
      im2 := g.im2
      solver_vel1 := g.solver_vel1
      solver_vel2 := g.solver_vel2
      manifold_id := g.manifold_id
      num_contacts := num_points }
  pointsFold g manifold_points (List.range num_points) (constraint, b0)

/-- One iteration of `generate`'s group loop on the output vectors: bounds
checks (the slice `[l..n0]` must lie inside each lane's solver contacts; the
output index `l / MAX_MANIFOLD_POINTS` must be in range) become `none` on
failure, mirroring the panics of slicing/indexing. -/
def generateGroup (g : GenGather) (n0 l : ℕ)
    (bc : List TwoBodyConstraintBuilderSimd × List TwoBodyConstraintSimd) :
    Option (List TwoBodyConstraintBuilderSimd × List TwoBodyConstraintSimd) :=
  if (∀ ii : Fin SIMD_WIDTH, n0 ≤ (g.manifolds ii).data.solver_contacts.length) ∧
      l / MAX_MANIFOLD_POINTS < bc.1.length ∧ l / MAX_MANIFOLD_POINTS < bc.2.length then
    let r := groupOut g n0 l (bc.2.getD (l / MAX_MANIFOLD_POINTS) defaultConstraint)
      (bc.1.getD (l / MAX_MANIFOLD_POINTS) defaultBuilder)
    some (bc.1.set (l / MAX_MANIFOLD_POINTS) r.2, bc.2.set (l / MAX_MANIFOLD_POINTS) r.1)
  else
    none

/-- `generate`'s group loop. -/
def groupsFold (g : GenGather) (n0 : ℕ) :
    List ℕ → List TwoBodyConstraintBuilderSimd × List TwoBodyConstraintSimd →
      Option (List TwoBodyConstraintBuilderSimd × List TwoBodyConstraintSimd)
  | [], bc => some bc
  | l :: ls, bc =>
    match generateGroup g n0 l bc with
    | none => none
    | some bc' => groupsFold g n0 ls bc'

/-- The number of iterations of `for l in (0..n0).step_by(MAX_MANIFOLD_POINTS)`. -/
def numGroups (n0 : ℕ) : ℕ := (n0 + MAX_MANIFOLD_POINTS - 1) / MAX_MANIFOLD_POINTS

/-- The offsets `l` visited by `generate`'s group loop. -/
def groupOffsets (n0 : ℕ) : List ℕ :=
  (List.range (numGroups n0)).map (· * MAX_MANIFOLD_POINTS)

/-- `TwoBodyConstraintBuilderSimd::generate`: assert that every lane's manifold
has zero relative dominance (abort otherwise), gather the body data, and run
the group loop, writing one constraint and one builder cache per group into
the output vectors. -/
def TwoBodyConstraintBuilderSimd.generate (manifold_id : Fin SIMD_WIDTH → ℕ)
    (manifolds : Fin SIMD_WIDTH → ContactManifold) (bodies : ℕ → RigidBody)
    (out_builders : List TwoBodyConstraintBuilderSimd)
    (out_constraints : List TwoBodyConstraintSimd) :
    Option (List TwoBodyConstraintBuilderSimd × List TwoBodyConstraintSimd) :=
  if ∀ ii : Fin SIMD_WIDTH, (manifolds ii).data.relative_dominance = 0 then
    let g := mkGather manifold_id manifolds bodies
    let num_active_contacts := (manifolds 0).data.num_active_contacts
    groupsFold g num_active_contacts (groupOffsets num_active_contacts)
      (out_builders, out_constraints)
  else
    none

/-! ### Structural facts about `generate` -/

theorem generatePoint_num_contacts (g : GenGather)
    (mp : Fin SIMD_WIDTH → List SolverContact) (k : ℕ)
    (cb : TwoBodyConstraintSimd × TwoBodyConstraintBuilderSimd) :
    (generatePoint g mp k cb).1.num_contacts = cb.1.num_contacts := rfl

theorem generatePoint_limit (g : GenGather)
    (mp : Fin SIMD_WIDTH → List SolverContact) (k : ℕ)
    (cb : TwoBodyConstraintSimd × TwoBodyConstraintBuilderSimd) :
    (generatePoint g mp k cb).1.limit = (pointData mp k).friction := rfl

theorem generatePoint_elements_length (g : GenGather)
    (mp : Fin SIMD_WIDTH → List SolverContact) (k : ℕ)
    (cb : TwoBodyConstraintSimd × TwoBodyConstraintBuilderSimd) :
    (generatePoint g mp k cb).1.elements.length = cb.1.elements.length := by
  show (cb.1.elements.set k _).length = _
  rw [List.length_set]

theorem pointsFold_num_contacts (g : GenGather)
    (mp : Fin SIMD_WIDTH → List SolverContact) (ks : List ℕ) :
    ∀ cb, (pointsFold g mp ks cb).1.num_contacts = cb.1.num_contacts := by
  induction ks with
  | nil => intro cb; rfl
  | cons k ks ih =>
    intro cb
    show (pointsFold g mp ks (generatePoint g mp k cb)).1.num_contacts = _
    rw [ih, generatePoint_num_contacts]

theorem pointsFold_elements_length (g : GenGather)
    (mp : Fin SIMD_WIDTH → List SolverContact) (ks : List ℕ) :
    ∀ cb, (pointsFold g mp ks cb).1.elements.length = cb.1.elements.length := by
  induction ks with
  | nil => intro cb; rfl
  | cons k ks ih =>
    intro cb
    show (pointsFold g mp ks (generatePoint g mp k cb)).1.elements.length = _
    rw [ih, generatePoint_elements_length]

theorem pointsFold_append (g : GenGather)
    (mp : Fin SIMD_WIDTH → List SolverContact) (xs ys : List ℕ) :
    ∀ cb, pointsFold g mp (xs ++ ys) cb = pointsFold g mp ys (pointsFold g mp xs cb) := by
  induction xs with
  | nil => intro cb; rfl
  | cons x xs ih =>
    intro cb
    show pointsFold g mp (xs ++ ys) (generatePoint g mp x cb) = _
    rw [ih]
    rfl

/-- The lane friction limit after `generate`'s point loop over `0..n+1` is the
friction gathered at the last processed point `n`. -/
theorem pointsFold_range_limit (g : GenGather)
    (mp : Fin SIMD_WIDTH → List SolverContact) (n : ℕ)
    (cb : TwoBodyConstraintSimd × TwoBodyConstraintBuilderSimd) :
    (pointsFold g mp (List.range (n+1)) cb).1.limit = (pointData mp n).friction := by
  rw [List.range_succ, pointsFold_append]
  rfl

theorem pointsFold_elements_untouched (g : GenGather)
    (mp : Fin SIMD_WIDTH → List SolverContact) (ks : List ℕ) :
    ∀ cb (j : ℕ), (∀ x ∈ ks, x ≠ j) →
      (pointsFold g mp ks cb).1.elements[j]? = cb.1.elements[j]? := by
  induction ks with
  | nil => intro cb j _; rfl
  | cons k ks ih =>
    intro cb j hj
    show (pointsFold g mp ks (generatePoint g mp k cb)).1.elements[j]? = _
    rw [ih _ j fun x hx => hj x (List.mem_cons_of_mem _ hx)]
    show (cb.1.elements.set k _)[j]? = _
    exact List.getElem?_set_ne (hj k (List.mem_cons_self k ks))

/-- Element `k` after `generate`'s point loop over `0..n` (with `k < n` in
bounds) is the generated element built from the pre-loop element at `k`. -/
theorem pointsFold_range_elements (g : GenGather)
    (mp : Fin SIMD_WIDTH → List SolverContact) (n : ℕ) :
    ∀ cb (k : ℕ), k < n → k < cb.1.elements.length →
      (pointsFold g mp (List.range n) cb).1.elements[k]? =
        some (generatedElement g mp k (cb.1.elements.getD k defaultElement)) := by
  induction n with
  | zero => intro cb k hk _; omega
  | succ n ih =>
    intro cb k hk hklen
    rw [List.range_succ, pointsFold_append]
    by_cases hkn : k = n
    · subst hkn
      have huntouched : (pointsFold g mp (List.range k) cb).1.elements[k]? =
          cb.1.elements[k]? :=
        pointsFold_elements_untouched g mp (List.range k) cb k fun x hx => by
          have := List.mem_range.mp hx; omega
      have hbound : k < (pointsFold g mp (List.range k) cb).1.elements.length := by
        rw [pointsFold_elements_length]; exact hklen
      have hgetD : (pointsFold g mp (List.range k) cb).1.elements.getD k defaultElement =
          cb.1.elements.getD k defaultElement := by
        rw [List.getD_eq_getElem?_getD, List.getD_eq_getElem?_getD, huntouched]
      show ((pointsFold g mp (List.range k) cb).1.elements.set k
        (generatedElement g mp k
          ((pointsFold g mp (List.range k) cb).1.elements.getD k defaultElement)))[k]? = _
      rw [hgetD]
      simp [List.getElem?_set_self, hbound]
    · have hkn' : k < n := by omega
      show ((pointsFold g mp (List.range n) cb).1.elements.set n
        (generatedElement g mp n _))[k]? = _
      rw [List.getElem?_set_ne (by omega : n ≠ k)]
      exact ih cb k hkn' hklen

/-- The group slice of lane `ii`. -/
def groupSlice (g : GenGather) (n0 l : ℕ) (ii : Fin SIMD_WIDTH) :
    List SolverContact :=
  ((g.manifolds ii).data.solver_contacts.drop l).take (n0 - l)

theorem groupOut_num_contacts (g : GenGather) (n0 l : ℕ)
    (c0 : TwoBodyConstraintSimd) (b0 : TwoBodyConstraintBuilderSimd) :
    (groupOut g n0 l c0 b0).1.num_contacts =
      min (groupSlice g n0 l 0).length MAX_MANIFOLD_POINTS := by
  unfold groupOut
  rw [pointsFold_num_contacts]
  rfl

theorem groupOut_limit (g : GenGather) (n0 l : ℕ)
    (c0 : TwoBodyConstraintSimd) (b0 : TwoBodyConstraintBuilderSimd)
    (hpos : 0 < min (groupSlice g n0 l 0).length MAX_MANIFOLD_POINTS) :
    (groupOut g n0 l c0 b0).1.limit =
      (pointData (groupSlice g n0 l)
        (min (groupSlice g n0 l 0).length MAX_MANIFOLD_POINTS - 1)).friction := by
  obtain ⟨m, hm⟩ : ∃ m,
      min (groupSlice g n0 l 0).length MAX_MANIFOLD_POINTS = m + 1 :=
    ⟨min (groupSlice g n0 l 0).length MAX_MANIFOLD_POINTS - 1, by omega⟩
  show (pointsFold g (groupSlice g n0 l)
    (List.range (min (groupSlice g n0 l 0).length MAX_MANIFOLD_POINTS)) _).1.limit = _
  rw [hm, pointsFold_range_limit]
  rfl

theorem groupOut_elements (g : GenGather) (n0 l : ℕ)
    (c0 : TwoBodyConstraintSimd) (b0 : TwoBodyConstraintBuilderSimd) (k : ℕ)
    (hk : k < min (groupSlice g n0 l 0).length MAX_MANIFOLD_POINTS)
    (hklen : k < c0.elements.length) :
    (groupOut g n0 l c0 b0).1.elements[k]? =
      some (generatedElement g (groupSlice g n0 l) k
        (c0.elements.getD k defaultElement)) := by
  show (pointsFold g (groupSlice g n0 l)
    (List.range (min (groupSlice g n0 l 0).length MAX_MANIFOLD_POINTS))
    _).1.elements[k]? = _
  exact pointsFold_range_elements g (groupSlice g n0 l) _ _ k hk hklen

/-- Inversion of a successful `generateGroup`. -/
theorem generateGroup_eq_some {g : GenGather} {n0 l : ℕ}
    {bc bc' : List TwoBodyConstraintBuilderSimd × List TwoBodyConstraintSimd}
    (h : generateGroup g n0 l bc = some bc') :
    (∀ ii : Fin SIMD_WIDTH, n0 ≤ (g.manifolds ii).data.solver_contacts.length) ∧
    l / MAX_MANIFOLD_POINTS < bc.1.length ∧ l / MAX_MANIFOLD_POINTS < bc.2.length ∧
    bc' = (bc.1.set (l / MAX_MANIFOLD_POINTS)
        (groupOut g n0 l (bc.2.getD (l / MAX_MANIFOLD_POINTS) defaultConstraint)
          (bc.1.getD (l / MAX_MANIFOLD_POINTS) defaultBuilder)).2,
      bc.2.set (l / MAX_MANIFOLD_POINTS)
        (groupOut g n0 l (bc.2.getD (l / MAX_MANIFOLD_POINTS) defaultConstraint)
          (bc.1.getD (l / MAX_MANIFOLD_POINTS) defaultBuilder)).1) := by
  unfold generateGroup at h
  split at h
  next hc =>
    injection h with h
    exact ⟨hc.1, hc.2.1, hc.2.2, h.symm⟩
  next => simp at h

/-- A successful `generateGroup` under explicit checks. -/
theorem generateGroup_pos (g : GenGather) (n0 l : ℕ)
    (bc : List TwoBodyConstraintBuilderSimd × List TwoBodyConstraintSimd)
    (h1 : ∀ ii : Fin SIMD_WIDTH, n0 ≤ (g.manifolds ii).data.solver_contacts.length)
    (h2 : l / MAX_MANIFOLD_POINTS < bc.1.length)
    (h3 : l / MAX_MANIFOLD_POINTS < bc.2.length) :
    generateGroup g n0 l bc = some
      (bc.1.set (l / MAX_MANIFOLD_POINTS)
        (groupOut g n0 l (bc.2.getD (l / MAX_MANIFOLD_POINTS) defaultConstraint)
          (bc.1.getD (l / MAX_MANIFOLD_POINTS) defaultBuilder)).2,
      bc.2.set (l / MAX_MANIFOLD_POINTS)
        (groupOut g n0 l (bc.2.getD (l / MAX_MANIFOLD_POINTS) defaultConstraint)
          (bc.1.getD (l / MAX_MANIFOLD_POINTS) defaultBuilder)).1) := by
  unfold generateGroup
  rw [if_pos ⟨h1, h2, h3⟩]

theorem groupsFold_lengths (g : GenGather) (n0 : ℕ) (ls : List ℕ) :
    ∀ bc bs cs, groupsFold g n0 ls bc = some (bs, cs) →
      bs.length = bc.1.length ∧ cs.length = bc.2.length := by
  induction ls with
  | nil =>
    intro bc bs cs h
    injection h with h
    rw [h]
    exact ⟨rfl, rfl⟩
  | cons l ls ih =>
    intro bc bs cs h
    cases hg : generateGroup g n0 l bc with
    | none => simp [groupsFold, hg] at h
    | some bc' =>
      simp only [groupsFold, hg] at h
      obtain ⟨_, h2, h3, hbc'⟩ := generateGroup_eq_some hg
      obtain ⟨hb, hc⟩ := ih bc' bs cs h
      subst hbc'
      exact ⟨hb.trans (List.length_set ..), hc.trans (List.length_set ..)⟩

theorem getD_set_ne {α : Type} (l : List α) (i j : ℕ) (a d : α) (h : i ≠ j) :
    (l.set i a).getD j d = l.getD j d := by
  rw [List.getD_eq_getElem?_getD, List.getD_eq_getElem?_getD, List.getElem?_set_ne h]

theorem groupsFold_untouched (g : GenGather) (n0 : ℕ) (ls : List ℕ) :
    ∀ bc bs cs, groupsFold g n0 ls bc = some (bs, cs) →
      ∀ j, (∀ l ∈ ls, l / MAX_MANIFOLD_POINTS ≠ j) →
        bs[j]? = bc.1[j]? ∧ cs[j]? = bc.2[j]? := by
  induction ls with
  | nil =>
    intro bc bs cs h j _
    injection h with h
    rw [h]
    exact ⟨rfl, rfl⟩
  | cons l ls ih =>
    intro bc bs cs h j hj
    cases hg : generateGroup g n0 l bc with
    | none => simp [groupsFold, hg] at h
    | some bc' =>
      simp only [groupsFold, hg] at h
      obtain ⟨_, h2, h3, hbc'⟩ := generateGroup_eq_some hg
      obtain ⟨hb, hc⟩ := ih bc' bs cs h j fun x hx => hj x (List.mem_cons_of_mem _ hx)
      subst hbc'
      have hne := hj l (List.mem_cons_self l ls)
      exact ⟨hb.trans (List.getElem?_set_ne hne), hc.trans (List.getElem?_set_ne hne)⟩

/-- The entry at group index `j` of a successful run of the group loop over
groups `s, …, s+m-1` is the group output computed from the original entries at
`j` (each group writes exactly its own output slot). -/
theorem groupsFold_getElem (g : GenGather) (n0 : ℕ) (m : ℕ) :
    ∀ (s : ℕ) bc bs cs,
      groupsFold g n0 ((List.range' s m).map (· * MAX_MANIFOLD_POINTS)) bc =
        some (bs, cs) →
      ∀ j, s ≤ j → j < s + m →
        bs[j]? = some (groupOut g n0 (j * MAX_MANIFOLD_POINTS)
            (bc.2.getD j defaultConstraint) (bc.1.getD j defaultBuilder)).2 ∧
        cs[j]? = some (groupOut g n0 (j * MAX_MANIFOLD_POINTS)
            (bc.2.getD j defaultConstraint) (bc.1.getD j defaultBuilder)).1 := by
  induction m with
  | zero => intro s bc bs cs h j h1 h2; omega
  | succ m ih =>
    intro s bc bs cs h j h1 h2
    rw [List.range'_succ, List.map_cons] at h
    cases hg : generateGroup g n0 (s * MAX_MANIFOLD_POINTS) bc with
    | none => simp [groupsFold, hg] at h
    | some bc' =>
      simp only [groupsFold, hg] at h
      obtain ⟨hlen, h2', h3', hbc'⟩ := generateGroup_eq_some hg
      have hsdiv : s * MAX_MANIFOLD_POINTS / MAX_MANIFOLD_POINTS = s := by
        show s * 2 / 2 = s; omega
      rw [hsdiv] at hbc' h2' h3'
      by_cases hjs : j = s
      · subst hjs
        have hrest : ∀ x ∈ (List.range' (j + 1) m).map (· * MAX_MANIFOLD_POINTS),
            x / MAX_MANIFOLD_POINTS ≠ j := by
          intro x hx
          obtain ⟨t, ht, rfl⟩ := List.mem_map.mp hx
          obtain ⟨ht1, ht2⟩ := List.mem_range'_1.mp ht
          have hdt : t * MAX_MANIFOLD_POINTS / MAX_MANIFOLD_POINTS = t := by
            show t * 2 / 2 = t; omega
          rw [hdt]; omega
        obtain ⟨hb, hc⟩ := groupsFold_untouched g n0 _ bc' bs cs h j hrest
        subst hbc'
        constructor
        · rw [hb]; simp [List.getElem?_set_self, h2']
        · rw [hc]; simp [List.getElem?_set_self, h3']
      · obtain ⟨hb, hc⟩ := ih (s + 1) bc' bs cs h j (by omega) (by omega)
        subst hbc'
        rw [getD_set_ne _ _ _ _ _ (by omega : s ≠ j),
          getD_set_ne _ _ _ _ _ (by omega : s ≠ j)] at hb hc
        exact ⟨hb, hc⟩

/-- When the per-lane slice bound holds and the output vectors cover all the
groups, the group loop succeeds. -/
theorem groupsFold_isSome (g : GenGather) (n0 : ℕ)
    (hlen : ∀ ii : Fin SIMD_WIDTH, n0 ≤ (g.manifolds ii).data.solver_contacts.length)
    (m : ℕ) : ∀ (s : ℕ) bc, s + m ≤ bc.1.length → s + m ≤ bc.2.length →
      (groupsFold g n0 ((List.range' s m).map (· * MAX_MANIFOLD_POINTS)) bc).isSome := by
  induction m with
  | zero => intro s bc _ _; rfl
  | succ m ih =>
    intro s bc hb hc
    rw [List.range'_succ, List.map_cons]
    have hsdiv : s * MAX_MANIFOLD_POINTS / MAX_MANIFOLD_POINTS = s := by
      show s * 2 / 2 = s; omega
    have hg := generateGroup_pos g n0 (s * MAX_MANIFOLD_POINTS) bc hlen
      (by rw [hsdiv]; omega) (by rw [hsdiv]; omega)
    simp only [groupsFold, hg]
    refine ih (s + 1) _ ?_ ?_
    · show s + 1 + m ≤ (bc.1.set _ _).length
      rw [List.length_set]; omega
    · show s + 1 + m ≤ (bc.2.set _ _).length
      rw [List.length_set]; omega

/-- Inversion of a successful `generate`: the dominance assertion passed and
the group loop ran on the gathered data. -/
theorem generate_eq_some {manifold_id : Fin SIMD_WIDTH → ℕ}
    {manifolds : Fin SIMD_WIDTH → ContactManifold} {bodies : ℕ → RigidBody}
    {out_builders : List TwoBodyConstraintBuilderSimd}
    {out_constraints : List TwoBodyConstraintSimd}
    {out : List TwoBodyConstraintBuilderSimd × List TwoBodyConstraintSimd}
    (h : TwoBodyConstraintBuilderSimd.generate manifold_id manifolds bodies
      out_builders out_constraints = some out) :
    (∀ ii : Fin SIMD_WIDTH, (manifolds ii).data.relative_dominance = 0) ∧
    groupsFold (mkGather manifold_id manifolds bodies)
      (manifolds 0).data.num_active_contacts
      (groupOffsets (manifolds 0).data.num_active_contacts)
      (out_builders, out_constraints) = some out := by
  unfold TwoBodyConstraintBuilderSimd.generate at h
  split at h
  next hdom => exact ⟨hdom, h⟩
  next => simp at h

/-- The constraint/builder written at group `gidx` by a successful `generate`. -/
theorem generate_getElem {manifold_id : Fin SIMD_WIDTH → ℕ}
    {manifolds : Fin SIMD_WIDTH → ContactManifold} {bodies : ℕ → RigidBody}
    {out_builders : List TwoBodyConstraintBuilderSimd}
    {out_constraints : List TwoBodyConstraintSimd}
    {out : List TwoBodyConstraintBuilderSimd × List TwoBodyConstraintSimd}
    (h : TwoBodyConstraintBuilderSimd.generate manifold_id manifolds bodies
      out_builders out_constraints = some out) (gidx : ℕ)
    (hg : gidx < numGroups (manifolds 0).data.num_active_contacts) :
    out.1[gidx]? = some (groupOut (mkGather manifold_id manifolds bodies)
        (manifolds 0).data.num_active_contacts (gidx * MAX_MANIFOLD_POINTS)
        (out_constraints.getD gidx defaultConstraint)
        (out_builders.getD gidx defaultBuilder)).2 ∧
    out.2[gidx]? = some (groupOut (mkGather manifold_id manifolds bodies)
        (manifolds 0).data.num_active_contacts (gidx * MAX_MANIFOLD_POINTS)
        (out_constraints.getD gidx defaultConstraint)
        (out_builders.getD gidx defaultBuilder)).1 := by
  obtain ⟨hdom, hfold⟩ := generate_eq_some h
  rw [groupOffsets, List.range_eq_range'] at hfold
  exact groupsFold_getElem _ _ (numGroups (manifolds 0).data.num_active_contacts) 0
    (out_builders, out_constraints) out.1 out.2 hfold gidx (by omega) (by omega)

/-- A successful `generate` with at least one group implies the slice bound on
every lane. -/
theorem generate_contacts_len {manifold_id : Fin SIMD_WIDTH → ℕ}
    {manifolds : Fin SIMD_WIDTH → ContactManifold} {bodies : ℕ → RigidBody}
    {out_builders : List TwoBodyConstraintBuilderSimd}
    {out_constraints : List TwoBodyConstraintSimd}
    {out : List TwoBodyConstraintBuilderSimd × List TwoBodyConstraintSimd}
    (h : TwoBodyConstraintBuilderSimd.generate manifold_id manifolds bodies
      out_builders out_constraints = some out)
    (hpos : 0 < numGroups (manifolds 0).data.num_active_contacts) :
    ∀ ii : Fin SIMD_WIDTH, (manifolds 0).data.num_active_contacts ≤
      (manifolds ii).data.solver_contacts.length := by
  obtain ⟨hdom, hfold⟩ := generate_eq_some h
  obtain ⟨m, hm⟩ : ∃ m, numGroups (manifolds 0).data.num_active_contacts = m + 1 :=
    ⟨numGroups (manifolds 0).data.num_active_contacts - 1, by omega⟩
  rw [groupOffsets, List.range_eq_range', hm, List.range'_succ, List.map_cons] at hfold
  cases hg : generateGroup (mkGather manifold_id manifolds bodies)
      (manifolds 0).data.num_active_contacts 0
      (out_builders, out_constraints) with
  | none => simp [groupsFold, hg] at hfold
  | some bc' => exact (generateGroup_eq_some hg).1

/-- Reading through the `[l..n0]` slice: the element at global index `l + k`.  -/
theorem slice_getD (s : List SolverContact) (n0 l k : ℕ) (hlen : n0 ≤ s.length)
    (hk : k < n0 - l) :
    s[l + k]? = some (((s.drop l).take (n0 - l)).getD k defaultSolverContact) := by
  have h1 : ((s.drop l).take (n0 - l))[k]? = s[l + k]? := by
    rw [List.getElem?_take, if_pos hk, List.getElem?_drop]
  cases hv : s[l + k]? with
  | none =>
    rw [List.getElem?_eq_none_iff] at hv
    omega
  | some v =>
    rw [List.getD_eq_getElem?_getD, h1, hv]
    rfl

/-! ### Concrete fixtures for the builder witnesses -/

/-- A concrete solver contact. -/
def wSolverContact : SolverContact :=
  { friction := 1/2, restitution := 0, is_bouncy := false, dist := -1/10,
    point := ⟨0, 0⟩, tangent_velocity := ⟨0, 0⟩, contact_id := 0 }

/-- A second concrete solver contact with a different friction coefficient. -/
def wSolverContact2 : SolverContact :=
  { wSolverContact with friction := 3/4, contact_id := 1 }

/-- A concrete two-contact manifold with zero relative dominance. -/
def wManifold : ContactManifold :=
  ⟨{ relative_dominance := 0, normal := ⟨0, 1⟩, rigid_body1 := 0, rigid_body2 := 1,
     num_active_contacts := 2, solver_contacts := [wSolverContact, wSolverContact2] }⟩

/-- A concrete manifold with nonzero relative dominance. -/
def wBadManifold : ContactManifold :=
  ⟨{ relative_dominance := 1, normal := ⟨0, 1⟩, rigid_body1 := 0, rigid_body2 := 1,
     num_active_contacts := 0, solver_contacts := [] }⟩

/-- A concrete rigid body. -/
def wRigidBody : RigidBody :=
  { pos := ⟨⟨1, 0, ⟨0, 0⟩⟩⟩, vels := ⟨⟨0, 0⟩, 0⟩, ids := ⟨0⟩,
    mprops := ⟨⟨0, 0⟩, ⟨1, 1⟩, 1⟩ }

/-! ### Claims about the builder pass -/

/-- C4: the batched two-body builder asserts `relative_dominance == 0` on every
lane: it aborts when any of the `SIMD_WIDTH` input manifolds has nonzero
relative dominance; when every lane's relative dominance is zero the assertion
passes and the builder proceeds normally (it succeeds whenever the slice and
output-buffer bounds hold). -/
theorem claim_C4_dominance_assertion (manifold_id : Fin SIMD_WIDTH → ℕ)
    (manifolds : Fin SIMD_WIDTH → ContactManifold) (bodies : ℕ → RigidBody)
    (out_builders : List TwoBodyConstraintBuilderSimd)
    (out_constraints : List TwoBodyConstraintSimd) :
    ((∃ ii : Fin SIMD_WIDTH, (manifolds ii).data.relative_dominance ≠ 0) →
      TwoBodyConstraintBuilderSimd.generate manifold_id manifolds bodies
        out_builders out_constraints = none) ∧
    ((∀ ii : Fin SIMD_WIDTH, (manifolds ii).data.relative_dominance = 0) →
      (∀ ii : Fin SIMD_WIDTH, (manifolds 0).data.num_active_contacts ≤
        (manifolds ii).data.solver_contacts.length) →
      numGroups (manifolds 0).data.num_active_contacts ≤ out_builders.length →
      numGroups (manifolds 0).data.num_active_contacts ≤ out_constraints.length →
      (TwoBodyConstraintBuilderSimd.generate manifold_id manifolds bodies
        out_builders out_constraints).isSome) := by
  constructor
  · rintro ⟨ii, hii⟩
    unfold TwoBodyConstraintBuilderSimd.generate
    rw [if_neg fun hall => hii (hall ii)]
  · intro hdom hlen hb hc
    unfold TwoBodyConstraintBuilderSimd.generate
    rw [if_pos hdom]
    show (groupsFold (mkGather manifold_id manifolds bodies)
      (manifolds 0).data.num_active_contacts
      ((List.range (numGroups (manifolds 0).data.num_active_contacts)).map
        (· * MAX_MANIFOLD_POINTS))
      (out_builders, out_constraints)).isSome = true
    rw [List.range_eq_range']
    exact groupsFold_isSome (mkGather manifold_id manifolds bodies) _ hlen _ 0
      (out_builders, out_constraints) (by simpa) (by simpa)

/-- C9: `generate` reads the number of active contacts from lane 0 only: every
produced constraint's `num_contacts` equals
`min(lane-0 group length, MAX_MANIFOLD_POINTS)`, for arbitrary active-contact
counts in the other lanes (they are quantified here and never read). -/
theorem claim_C9_lane0_active_contacts (manifold_id : Fin SIMD_WIDTH → ℕ)
    (manifolds : Fin SIMD_WIDTH → ContactManifold) (bodies : ℕ → RigidBody)
    (out_builders : List TwoBodyConstraintBuilderSimd)
    (out_constraints : List TwoBodyConstraintSimd) (gidx : ℕ)
    (hg : gidx < numGroups (manifolds 0).data.num_active_contacts)
    (hs : (TwoBodyConstraintBuilderSimd.generate manifold_id manifolds bodies
      out_builders out_constraints).isSome) :
    ((TwoBodyConstraintBuilderSimd.generate manifold_id manifolds bodies
        out_builders out_constraints).bind fun out => out.2[gidx]?).map
      (fun c => c.num_contacts) =
      some (min ((manifolds 0).data.num_active_contacts -
        gidx * MAX_MANIFOLD_POINTS) MAX_MANIFOLD_POINTS) := by
  obtain ⟨out, hout⟩ := Option.isSome_iff_exists.mp hs
  have hg' : gidx < ((manifolds 0).data.num_active_contacts + 2 - 1) / 2 := hg
  have hlen0 := generate_contacts_len hout (by omega) 0
  rw [hout, Option.some_bind, (generate_getElem hout gidx hg).2, Option.map_some',
    groupOut_num_contacts]
  show some (min (((((manifolds 0).data.solver_contacts.drop
    (gidx * MAX_MANIFOLD_POINTS)).take ((manifolds 0).data.num_active_contacts -
      gidx * MAX_MANIFOLD_POINTS)).length)) MAX_MANIFOLD_POINTS) = _
  rw [List.length_take, List.length_drop]
  congr 1
  show min (min _ _) 2 = min _ 2
  omega

/-- C8: the per-lane friction limit of every generated constraint batch is
overwritten on each contact-point iteration, so it equals the friction
coefficient of the group's last processed contact point (global index
`l + num_points - 1` in each lane's solver contacts). -/
theorem claim_C8_limit_last_friction (manifold_id : Fin SIMD_WIDTH → ℕ)
    (manifolds : Fin SIMD_WIDTH → ContactManifold) (bodies : ℕ → RigidBody)
    (out_builders : List TwoBodyConstraintBuilderSimd)
    (out_constraints : List TwoBodyConstraintSimd) (gidx : ℕ)
    (hg : gidx < numGroups (manifolds 0).data.num_active_contacts)
    (hs : (TwoBodyConstraintBuilderSimd.generate manifold_id manifolds bodies
      out_builders out_constraints).isSome) (ii : Fin SIMD_WIDTH) :
    ((TwoBodyConstraintBuilderSimd.generate manifold_id manifolds bodies
        out_builders out_constraints).bind fun out => out.2[gidx]?).map
      (fun c => c.limit ii) =
      ((manifolds ii).data.solver_contacts[gidx * MAX_MANIFOLD_POINTS +
        (min ((manifolds 0).data.num_active_contacts - gidx * MAX_MANIFOLD_POINTS)
          MAX_MANIFOLD_POINTS - 1)]?).map (fun sc => sc.friction) := by
  obtain ⟨out, hout⟩ := Option.isSome_iff_exists.mp hs
  have hg' : gidx < ((manifolds 0).data.num_active_contacts + 2 - 1) / 2 := hg
  have hlen0 := generate_contacts_len hout (by omega) 0
  have hlenii := generate_contacts_len hout (by omega) ii
  rw [hout, Option.some_bind, (generate_getElem hout gidx hg).2, Option.map_some']
  have hslice0 : (groupSlice (mkGather manifold_id manifolds bodies)
      (manifolds 0).data.num_active_contacts (gidx * MAX_MANIFOLD_POINTS) 0).length =
      (manifolds 0).data.num_active_contacts - gidx * MAX_MANIFOLD_POINTS := by
    show ((((manifolds 0).data.solver_contacts.drop (gidx * MAX_MANIFOLD_POINTS)).take
      ((manifolds 0).data.num_active_contacts - gidx * MAX_MANIFOLD_POINTS)).length) = _
    rw [List.length_take, List.length_drop]
    show min ((manifolds 0).data.num_active_contacts - gidx * 2)
      ((manifolds 0).data.solver_contacts.length - gidx * 2) =
      (manifolds 0).data.num_active_contacts - gidx * 2
    omega
  have hpos : 0 < min (groupSlice (mkGather manifold_id manifolds bodies)
      (manifolds 0).data.num_active_contacts (gidx * MAX_MANIFOLD_POINTS) 0).length
      MAX_MANIFOLD_POINTS := by
    rw [hslice0]
    show 0 < min ((manifolds 0).data.num_active_contacts - gidx * 2) 2
    omega
  rw [groupOut_limit _ _ _ _ _ hpos, hslice0]
  have hk : min ((manifolds 0).data.num_active_contacts - gidx * MAX_MANIFOLD_POINTS)
      MAX_MANIFOLD_POINTS - 1 <
      (manifolds 0).data.num_active_contacts - gidx * MAX_MANIFOLD_POINTS := by
    show min ((manifolds 0).data.num_active_contacts - gidx * 2) 2 - 1 <
      (manifolds 0).data.num_active_contacts - gidx * 2
    omega
  rw [slice_getD (manifolds ii).data.solver_contacts
    (manifolds 0).data.num_active_contacts (gidx * MAX_MANIFOLD_POINTS) _ hlenii hk,
    Option.map_some']
  rfl

/-- C7 (amended): warm-start continuity within a step. Every `update` call
rolls each element's incremental impulse into its accumulated total and resets
the incremental impulse to zero, for both the normal and the tangent part.
`generate` (the step-boundary builder pass) resets the normal part's
incremental and total impulses and the tangent part's incremental impulse of
every produced element to zero; the tangent part's total impulse is not
written by `generate` (it keeps whatever the output buffer held). -/
theorem claim_C7_warm_start_impulses :
    (∀ (self : TwoBodyConstraintBuilderSimd) (params : IntegrationParameters)
      (solved_dt : ℚ) (bodies : ℕ → SolverBody) (constraint : TwoBodyConstraintSimd)
      (k : ℕ) (info : ContactPointInfos) (elt : TwoBodyConstraintElement),
      k < constraint.num_contacts → self.infos[k]? = some info →
      constraint.elements[k]? = some elt →
      ((self.update params solved_dt bodies constraint).elements[k]?).map
        (fun e => (e.normal_part.total_impulse, e.normal_part.impulse,
          e.tangent_part.total_impulse, e.tangent_part.impulse)) =
      some (elt.normal_part.total_impulse + elt.normal_part.impulse,
        SimdReal.splat 0,
        elt.tangent_part.total_impulse + elt.tangent_part.impulse,
        SimdReal.splat 0)) ∧
    (∀ (manifold_id : Fin SIMD_WIDTH → ℕ)
      (manifolds : Fin SIMD_WIDTH → ContactManifold) (bodies : ℕ → RigidBody)
      (out_builders : List TwoBodyConstraintBuilderSimd)
      (out_constraints : List TwoBodyConstraintSimd) (gidx k : ℕ),
      gidx < numGroups (manifolds 0).data.num_active_contacts →
      k < min ((manifolds 0).data.num_active_contacts - gidx * MAX_MANIFOLD_POINTS)
        MAX_MANIFOLD_POINTS →
      k < (out_constraints.getD gidx defaultConstraint).elements.length →
      (TwoBodyConstraintBuilderSimd.generate manifold_id manifolds bodies
        out_builders out_constraints).isSome →
      (((TwoBodyConstraintBuilderSimd.generate manifold_id manifolds bodies
          out_builders out_constraints).bind fun out => out.2[gidx]?).bind
        (fun c => c.elements[k]?)).map
        (fun e => (e.normal_part.impulse, e.normal_part.total_impulse,
          e.tangent_part.impulse, e.tangent_part.total_impulse)) =
      some (SimdReal.splat 0, SimdReal.splat 0, SimdReal.splat 0,
        ((out_constraints.getD gidx defaultConstraint).elements.getD k
          defaultElement).tangent_part.total_impulse)) := by
  constructor
  · intro self params solved_dt bodies constraint k info elt hk hi he
    rw [update_elements_getElem self params solved_dt bodies constraint k info elt
      hk hi he, Option.map_some']
    rfl
  · intro manifold_id manifolds bodies out_builders out_constraints gidx k hg hk hklen hs
    obtain ⟨out, hout⟩ := Option.isSome_iff_exists.mp hs
    have hg' : gidx < ((manifolds 0).data.num_active_contacts + 2 - 1) / 2 := hg
    have hlen0 := generate_contacts_len hout (by omega) 0
    rw [hout, Option.some_bind, (generate_getElem hout gidx hg).2, Option.some_bind]
    have hslice0 : (groupSlice (mkGather manifold_id manifolds bodies)
        (manifolds 0).data.num_active_contacts (gidx * MAX_MANIFOLD_POINTS) 0).length =
        (manifolds 0).data.num_active_contacts - gidx * MAX_MANIFOLD_POINTS := by
      show ((((manifolds 0).data.solver_contacts.drop (gidx * MAX_MANIFOLD_POINTS)).take
        ((manifolds 0).data.num_active_contacts - gidx * MAX_MANIFOLD_POINTS)).length) = _
      rw [List.length_take, List.length_drop]
      show min ((manifolds 0).data.num_active_contacts - gidx * 2)
        ((manifolds 0).data.solver_contacts.length - gidx * 2) =
        (manifolds 0).data.num_active_contacts - gidx * 2
      omega
    rw [groupOut_elements _ _ _ _ _ k (by rw [hslice0]; exact hk) hklen,
      Option.map_some']
    rfl

/-- C7 counterexample: running `generate` on an output buffer whose element 0
has tangent total impulse 6 yields a produced element whose tangent total
impulse is still 6, not 0 — `generate` does not reset the tangent part's total
impulse, contradicting the claim that it "resets both the incremental and the
total impulses of every produced element to zero". -/
theorem claim_C7_counterexample :
    ((((TwoBodyConstraintBuilderSimd.generate (fun _ => 0) (fun _ => wManifold)
        (fun _ => wRigidBody) [wBuilder] [wConstraint]).bind
        fun out => out.2[0]?).bind fun c => c.elements[0]?).map
      (fun e => e.tangent_part.total_impulse 0) = some 6) ∧ (6 : ℚ) ≠ 0 := by
  constructor
  · rfl
  · norm_num

/-- Witness for C4: a nonzero-dominance lane aborts; the all-zero fixture runs. -/
theorem claim_C4_witness :
    (TwoBodyConstraintBuilderSimd.generate (fun _ => 0) (fun _ => wBadManifold)
      (fun _ => wRigidBody) [wBuilder] [wConstraint] = none) ∧
    (TwoBodyConstraintBuilderSimd.generate (fun _ => 0) (fun _ => wManifold)
      (fun _ => wRigidBody) [wBuilder] [wConstraint]).isSome :=
  ⟨(claim_C4_dominance_assertion (fun _ => 0) (fun _ => wBadManifold)
      (fun _ => wRigidBody) [wBuilder] [wConstraint]).1 ⟨0, by decide⟩,
   (claim_C4_dominance_assertion (fun _ => 0) (fun _ => wManifold)
      (fun _ => wRigidBody) [wBuilder] [wConstraint]).2 (fun _ => rfl)
      (fun _ => by decide) (by decide) (by decide)⟩

/-- Witness for C9 on the two-contact fixture: the single group's
`num_contacts` is 2. -/
theorem claim_C9_witness :
    ((TwoBodyConstraintBuilderSimd.generate (fun _ => 0) (fun _ => wManifold)
        (fun _ => wRigidBody) [wBuilder] [wConstraint]).bind fun out => out.2[0]?).map
      (fun c => c.num_contacts) = some 2 :=
  claim_C9_lane0_active_contacts (fun _ => 0) (fun _ => wManifold)
    (fun _ => wRigidBody) [wBuilder] [wConstraint] 0 (by decide) (by rfl)

/-- Witness for C8 on the two-contact fixture: the lane limit is the second
contact's friction coefficient 3/4 (the first contact's 1/2 is overwritten). -/
theorem claim_C8_witness :
    ((TwoBodyConstraintBuilderSimd.generate (fun _ => 0) (fun _ => wManifold)
        (fun _ => wRigidBody) [wBuilder] [wConstraint]).bind fun out => out.2[0]?).map
      (fun c => c.limit 0) = some (3/4 : ℚ) :=
  claim_C8_limit_last_friction (fun _ => 0) (fun _ => wManifold)
    (fun _ => wRigidBody) [wBuilder] [wConstraint] 0 (by decide) (by rfl) 0

/-- Witness for C7 (amended): impulse carry-over in `update` and the resets
plus tangent-total preservation in `generate`, on the concrete fixtures. -/
theorem claim_C7_witness :
    (((wBuilder.update wParams 0 (fun _ => wBody) wConstraint).elements[0]?).map
        (fun e => (e.normal_part.total_impulse, e.normal_part.impulse,
          e.tangent_part.total_impulse, e.tangent_part.impulse)) =
      some (wElement.normal_part.total_impulse + wElement.normal_part.impulse,
        SimdReal.splat 0,
        wElement.tangent_part.total_impulse + wElement.tangent_part.impulse,
        SimdReal.splat 0)) ∧
    ((((TwoBodyConstraintBuilderSimd.generate (fun _ => 0) (fun _ => wManifold)
        (fun _ => wRigidBody) [wBuilder] [wConstraint]).bind fun out => out.2[0]?).bind
        (fun c => c.elements[0]?)).map
        (fun e => (e.normal_part.impulse, e.normal_part.total_impulse,
          e.tangent_part.impulse, e.tangent_part.total_impulse)) =
      some (SimdReal.splat 0, SimdReal.splat 0, SimdReal.splat 0,
        wElement.tangent_part.total_impulse)) :=
  ⟨claim_C7_warm_start_impulses.1 wBuilder wParams 0 (fun _ => wBody) wConstraint
      0 wInfo wElement (by decide) rfl rfl,
   claim_C7_warm_start_impulses.2 (fun _ => 0) (fun _ => wManifold)
      (fun _ => wRigidBody) [wBuilder] [wConstraint] 0 0 (by decide) (by decide)
      (by decide) (by rfl)⟩

end Rapier
